import Mathlib

/-!
# Kugle-Embedded: the shared parameter store

A shallow embedding of `KugleFirmware/Libraries/Modules/Parameters/Parameters.cpp`.

* An object's parameter bank is the list of the `PARAMETERS_LENGTH` bytes that start at
  `&ForceDefaultParameters`; every `memcpy` of the source is a byte copy on such lists.
* `Parameters.h` and the LSPC message headers are not part of the sources at hand, so the
  struct layout, the enumerator codes and the two length constants are collected in a
  `Schema` that every definition takes as a parameter.
* The file-static pointer `paramsGlobal`, the two binary semaphores, the EEPROM section and
  the stream of `TransmitAsync` calls are fields of an explicit state `Sys`.
* A blocking `xSemaphoreTake(..., portMAX_DELAY)` is modelled from the moment it returns:
  the permit is held afterwards. The non-blocking take of `Refresh` looks at the permit.
-/

namespace Kugle

/-! ## Registry types -/

/-- Value types, the enumerators of `lspc::ParameterLookup::ValueType_t`. -/
inductive ValueType where
  | _bool
  | _float
  | _uint8
  | _uint16
  | _uint32
  | _unknown
  deriving DecidableEq, Repr

/-- Parameter groups, the enumerators compared with `type` in `LookupParameter`. -/
inductive Group where
  | debug
  | test
  | behavioural
  | controller
  | estimator
  | model
  deriving DecidableEq, Repr

/-- Parameter identifiers, the `case` labels of `LookupParameter`; each one also names the
member of the object that the case takes the address of. -/
inductive Param where
  | EnableLogOutput
  | EnableRawSensorOutput
  | tmp
  | tmp2
  | IndependentHeading
  | YawVelocityBraking
  | StepTestEnabled
  | VelocityControllerEnabled
  | JoystickVelocityControl
  | ControllerSampleRate
  | mode
  | type
  | EnableTorqueLPF
  | EstimatorSampleRate
  | EnableSensorLPFfilters
  | EnableSoftwareLPFfilters
  | CreateQdotFromQDifference
  | UseMadgwick
  | UseVelocityEstimator
  | EstimateCOM
  | l
  | Mk
  | Mb
  deriving DecidableEq, Repr

/-- The declarations that `Parameters.cpp` takes from headers outside the sources at hand:
the two length constants, the numeric codes of the enumerators, the byte offset of every
registered member and of `ParametersSize` from `&ForceDefaultParameters`, and the image of
the default member initialisers. -/
structure Schema where
  PARAMETERS_LENGTH : Nat
  LSPC_MAXIMUM_PACKAGE_LENGTH : Nat
  groupCode : Group → Nat
  paramCode : Param → Nat
  valueTypeCode : ValueType → Nat
  offset : Param → Nat
  sizeOffset : Nat
  defaults : List Nat

/-! ## Bytes -/

/-- The `n` bytes of `mem` that start at offset `off`. -/
def readBytes (mem : List Nat) (off n : Nat) : List Nat :=
  (mem.drop off).take n

/-- The effect of `memcpy(mem + off, src, src.length)` on `mem`. -/
def memcpyAt (mem : List Nat) (off : Nat) (src : List Nat) : List Nat :=
  mem.take off ++ src ++ mem.drop (off + src.length)

/-- The two bytes of a 16-bit value, least significant first. -/
def le16 (n : Nat) : List Nat :=
  [n % 256, (n / 256) % 256]

/-- The 16-bit value stored at offset `off`, least significant byte first. -/
def readLe16 (mem : List Nat) (off : Nat) : Nat :=
  mem.getD off 0 + 256 * mem.getD (off + 1) 0

/-- The member `ForceDefaultParameters`, the first byte of the bank, read as a `bool`. -/
def ForceDefaultParameters (bank : List Nat) : Bool :=
  bank.getD 0 0 != 0

/-- Modelled from the spec: the member `ParametersSize` is declared in `Parameters.h`, which
is missing; it is taken as a 16-bit little-endian field (the width of the length that the
dump header carries) at `sizeOffset`. This reads it. -/
def getParametersSize (S : Schema) (bank : List Nat) : Nat :=
  readLe16 bank S.sizeOffset

/-- The assignment `ParametersSize = n` on a bank. -/
def setParametersSize (S : Schema) (bank : List Nat) (n : Nat) : List Nat :=
  memcpyAt bank S.sizeOffset (le16 n)

/-- The `copyLength` chain of `SetParameter_Callback` and `GetParameter_Callback`. -/
def copyLength (valueType : ValueType) : Nat :=
  if valueType = ValueType._bool then 1
  else if valueType = ValueType._float then 4
  else if valueType = ValueType._uint8 then 1
  else if valueType = ValueType._uint16 then 2
  else if valueType = ValueType._uint32 then 4
  else 0

/-- Modelled from the spec: `sizeof(lspc::MessageTypesFromPC::SetParameter_t)`, the four
one-byte fields group, id, type, arrayLength of the request (declared in a missing header). -/
def sizeofSetParameter : Nat := 4

/-- Modelled from the spec: `sizeof(lspc::MessageTypesFromPC::GetParameter_t)`, the two
one-byte fields group, id of the request (declared in a missing header). -/
def sizeofGetParameter : Nat := 2

/-! ## Registry -/

/-- The function `Parameters::LookupParameter`: the value type, the member whose address is
stored in `*paramPtr` (`none` is the null pointer) and the array size. -/
def LookupParameter (S : Schema) (type param : Nat) : ValueType × Option Param × Nat :=
  if type = S.groupCode Group.debug then
    if param = S.paramCode Param.EnableLogOutput then
      (ValueType._bool, some Param.EnableLogOutput, 1)
    else if param = S.paramCode Param.EnableRawSensorOutput then
      (ValueType._bool, some Param.EnableRawSensorOutput, 1)
    else (ValueType._unknown, none, 1)
  else if type = S.groupCode Group.test then
    if param = S.paramCode Param.tmp then
      (ValueType._float, some Param.tmp, 1)
    else if param = S.paramCode Param.tmp2 then
      (ValueType._float, some Param.tmp2, 1)
    else (ValueType._unknown, none, 1)
  else if type = S.groupCode Group.behavioural then
    if param = S.paramCode Param.IndependentHeading then
      (ValueType._bool, some Param.IndependentHeading, 1)
    else if param = S.paramCode Param.YawVelocityBraking then
      (ValueType._bool, some Param.YawVelocityBraking, 1)
    else if param = S.paramCode Param.StepTestEnabled then
      (ValueType._bool, some Param.StepTestEnabled, 1)
    else if param = S.paramCode Param.VelocityControllerEnabled then
      (ValueType._bool, some Param.VelocityControllerEnabled, 1)
    else if param = S.paramCode Param.JoystickVelocityControl then
      (ValueType._bool, some Param.JoystickVelocityControl, 1)
    else (ValueType._unknown, none, 1)
  else if type = S.groupCode Group.controller then
    if param = S.paramCode Param.ControllerSampleRate then
      (ValueType._float, some Param.ControllerSampleRate, 1)
    else if param = S.paramCode Param.mode then
      (ValueType._uint8, some Param.mode, 1)
    else if param = S.paramCode Param.type then
      (ValueType._uint8, some Param.type, 1)
    else if param = S.paramCode Param.EnableTorqueLPF then
      (ValueType._bool, some Param.EnableTorqueLPF, 1)
    else (ValueType._unknown, none, 1)
  else if type = S.groupCode Group.estimator then
    if param = S.paramCode Param.EstimatorSampleRate then
      (ValueType._float, some Param.EstimatorSampleRate, 1)
    else if param = S.paramCode Param.EnableSensorLPFfilters then
      (ValueType._bool, some Param.EnableSensorLPFfilters, 1)
    else if param = S.paramCode Param.EnableSoftwareLPFfilters then
      (ValueType._bool, some Param.EnableSoftwareLPFfilters, 1)
    else if param = S.paramCode Param.CreateQdotFromQDifference then
      (ValueType._bool, some Param.CreateQdotFromQDifference, 1)
    else if param = S.paramCode Param.UseMadgwick then
      (ValueType._bool, some Param.UseMadgwick, 1)
    else if param = S.paramCode Param.UseVelocityEstimator then
      (ValueType._bool, some Param.UseVelocityEstimator, 1)
    else if param = S.paramCode Param.EstimateCOM then
      (ValueType._bool, some Param.EstimateCOM, 1)
    else (ValueType._unknown, none, 1)
  else if type = S.groupCode Group.model then
    if param = S.paramCode Param.l then
      (ValueType._float, some Param.l, 1)
    else if param = S.paramCode Param.Mk then
      (ValueType._float, some Param.Mk, 1)
    else if param = S.paramCode Param.Mb then
      (ValueType._float, some Param.Mb, 1)
    else (ValueType._unknown, none, 1)
  else (ValueType._unknown, none, 1)

/-- The value type that the registry table itself gives to a member. -/
def registryType : Param → ValueType
  | Param.EnableLogOutput => ValueType._bool
  | Param.EnableRawSensorOutput => ValueType._bool
  | Param.tmp => ValueType._float
  | Param.tmp2 => ValueType._float
  | Param.IndependentHeading => ValueType._bool
  | Param.YawVelocityBraking => ValueType._bool
  | Param.StepTestEnabled => ValueType._bool
  | Param.VelocityControllerEnabled => ValueType._bool
  | Param.JoystickVelocityControl => ValueType._bool
  | Param.ControllerSampleRate => ValueType._float
  | Param.mode => ValueType._uint8
  | Param.type => ValueType._uint8
  | Param.EnableTorqueLPF => ValueType._bool
  | Param.EstimatorSampleRate => ValueType._float
  | Param.EnableSensorLPFfilters => ValueType._bool
  | Param.EnableSoftwareLPFfilters => ValueType._bool
  | Param.CreateQdotFromQDifference => ValueType._bool
  | Param.UseMadgwick => ValueType._bool
  | Param.UseVelocityEstimator => ValueType._bool
  | Param.EstimateCOM => ValueType._bool
  | Param.l => ValueType._float
  | Param.Mk => ValueType._float
  | Param.Mb => ValueType._float

/-- All members that `LookupParameter` can return. -/
def allParams : List Param :=
  [Param.EnableLogOutput, Param.EnableRawSensorOutput, Param.tmp, Param.tmp2,
   Param.IndependentHeading, Param.YawVelocityBraking, Param.StepTestEnabled,
   Param.VelocityControllerEnabled, Param.JoystickVelocityControl,
   Param.ControllerSampleRate, Param.mode, Param.type, Param.EnableTorqueLPF,
   Param.EstimatorSampleRate, Param.EnableSensorLPFfilters, Param.EnableSoftwareLPFfilters,
   Param.CreateQdotFromQDifference, Param.UseMadgwick, Param.UseVelocityEstimator,
   Param.EstimateCOM, Param.l, Param.Mk, Param.Mb]

/-- Every registered member lies inside the bank: the bytes that the registry's type gives
it end before `PARAMETERS_LENGTH`. This is what the struct layout of `Parameters.h`
provides for the members between `ForceDefaultParameters` and the end of the bank. -/
def Schema.FieldsInBank (S : Schema) : Prop :=
  ∀ p ∈ allParams, S.offset p + copyLength (registryType p) ≤ S.PARAMETERS_LENGTH

instance (S : Schema) : Decidable S.FieldsInBank := by
  unfold Schema.FieldsInBank
  infer_instance

/-! ## State -/

/-- A transmission handed to `com_->TransmitAsync`, one constructor per call site. -/
inductive Msg where
  | SetParameterAck (type param : Nat) (acknowledged : Bool)
  | GetParameter (type param : Nat) (valueType : ValueType) (arraySize : Nat)
      (value : List Nat)
  | StoreParametersAck (acknowledged : Bool)
  | DumpParametersHeader (parameters_size_bytes packages_to_follow : Nat)
  | DumpParametersData (bytes : List Nat)
  deriving DecidableEq, Repr

/-- A `Parameters` object: its bank and its private members. `eeprom_` and `com_` record
whether the pointer is non-null. The private members are declared after the bank (the
constructor initialises them in the order `eeprom_`, `com_`, the semaphores,
`changeCounter_`), so no bank copy touches `changeCounter_`; `Refresh` assigns it on its
own. The type of `changeCounter_` is declared in the missing header; its increments are
taken modulo 2^32, as for a `uint32_t`. -/
structure Obj where
  bank : List Nat
  changeCounter_ : Nat
  eeprom_ : Bool
  com_ : Bool
  deriving DecidableEq, Repr

instance : Inhabited Obj := ⟨⟨[], 0, false, false⟩⟩

/-- The parameter section of the EEPROM. `writeCompletes` is what the device will answer to
`WriteData` (`EEPROM_FLASH_COMPLETE` or not), `written` lists the byte strings handed to
`WriteData` and `reads` counts the calls of `ReadData`. A write that does not complete is
taken to leave the image as it was. -/
structure EEPROM where
  image : List Nat
  writeCompletes : Bool
  written : List (List Nat)
  reads : Nat
  deriving DecidableEq, Repr

/-- A call on one of the two semaphores. -/
inductive SemEvent where
  | takeWrite
  | takeRead
  | giveRead
  | giveWrite
  deriving DecidableEq, Repr

/-- A pointer to a `Parameters` object: the object `paramsGlobal` points to, or the object
number `i` of the application. -/
inductive Ref where
  | global
  | cache (i : Nat)
  deriving DecidableEq, Repr

/-- The state of the module: `paramsGlobal` (`none` is the null pointer), the objects of the
application, the two binary semaphores (`true`: available), the calls made on them, the
EEPROM, and the transmissions in the order of the `TransmitAsync` calls. -/
structure Sys where
  paramsGlobal : Option Obj
  objects : Nat → Obj
  readSemaphore_ : Bool
  writeSemaphore_ : Bool
  semLog : List SemEvent
  eeprom : EEPROM
  tx : List Msg

/-- The object behind a pointer. -/
def Sys.obj (s : Sys) : Ref → Obj
  | Ref.global => s.paramsGlobal.getD default
  | Ref.cache i => s.objects i

/-- Store an object behind a pointer. -/
def Sys.setObj (s : Sys) (r : Ref) (o : Obj) : Sys :=
  match r with
  | Ref.global => { s with paramsGlobal := some o }
  | Ref.cache i => { s with objects := Function.update s.objects i o }

/-- Overwrite the bank of an object. -/
def Sys.setBank (s : Sys) (r : Ref) (bank : List Nat) : Sys :=
  s.setObj r { s.obj r with bank := bank }

/-- Overwrite the change counter of an object. -/
def Sys.setCounter (s : Sys) (r : Ref) (c : Nat) : Sys :=
  s.setObj r { s.obj r with changeCounter_ := c }

/-- The call `xSemaphoreTake(paramsGlobal->writeSemaphore_, portMAX_DELAY)`, on return. -/
def takeWrite (s : Sys) : Sys :=
  { s with writeSemaphore_ := false, semLog := s.semLog ++ [SemEvent.takeWrite] }

/-- The call `xSemaphoreTake(paramsGlobal->readSemaphore_, portMAX_DELAY)`, on return. -/
def takeRead (s : Sys) : Sys :=
  { s with readSemaphore_ := false, semLog := s.semLog ++ [SemEvent.takeRead] }

/-- The call `xSemaphoreGive(paramsGlobal->readSemaphore_)`. -/
def giveRead (s : Sys) : Sys :=
  { s with readSemaphore_ := true, semLog := s.semLog ++ [SemEvent.giveRead] }

/-- The call `xSemaphoreGive(paramsGlobal->writeSemaphore_)`. -/
def giveWrite (s : Sys) : Sys :=
  { s with writeSemaphore_ := true, semLog := s.semLog ++ [SemEvent.giveWrite] }

/-- The call `com_->TransmitAsync(...)`. -/
def transmit (s : Sys) (m : Msg) : Sys :=
  { s with tx := s.tx ++ [m] }

/-- The call `eeprom->ReadData(section, buf, n)`: the bytes delivered into the buffer. -/
def EEPROM.ReadData (e : EEPROM) (n : Nat) : EEPROM × List Nat :=
  ({ e with reads := e.reads + 1 }, e.image.take n)

/-- The call `eeprom->WriteData(section, data, n)`: the device afterwards and whether the
status is `EEPROM_FLASH_COMPLETE`. -/
def EEPROM.WriteData (e : EEPROM) (data : List Nat) : EEPROM × Bool :=
  ({ e with image := if e.writeCompletes then data else e.image,
            written := e.written ++ [data] }, e.writeCompletes)

/-! ## Transactions -/

/-- The function `Parameters::Refresh`. -/
def Refresh (S : Schema) (this : Ref) (s : Sys) : Sys :=
  match s.paramsGlobal with
  | none => s
  | some _ =>
    let s := s.setBank this (setParametersSize S (s.obj this).bank S.PARAMETERS_LENGTH)
    if s.readSemaphore_ then
      let s := takeRead s
      let s :=
        if (s.obj this).changeCounter_ ≠ (s.obj Ref.global).changeCounter_ then
          let s := s.setCounter this (s.obj Ref.global).changeCounter_
          s.setBank this
            (memcpyAt (s.obj this).bank 0 (readBytes (s.obj Ref.global).bank 0 S.PARAMETERS_LENGTH))
        else s
      giveRead s
    else s

/-- The function `Parameters::LockForChange`. -/
def LockForChange (S : Schema) (this : Ref) (s : Sys) : Sys :=
  match s.paramsGlobal with
  | none => s
  | some _ =>
    let s := takeWrite s
    let s := takeRead s
    let s := s.setBank this
      (memcpyAt (s.obj this).bank 0 (readBytes (s.obj Ref.global).bank 0 S.PARAMETERS_LENGTH))
    s.setCounter this (((s.obj this).changeCounter_ + 1) % 4294967296)

/-- The function `Parameters::UnlockAfterChange`. -/
def UnlockAfterChange (S : Schema) (this : Ref) (s : Sys) : Sys :=
  match s.paramsGlobal with
  | none => s
  | some _ =>
    let s := s.setBank Ref.global
      (memcpyAt (s.obj Ref.global).bank 0 (readBytes (s.obj this).bank 0 S.PARAMETERS_LENGTH))
    let s := giveRead s
    giveWrite s

/-- The application code between `LockForChange` and `UnlockAfterChange`: any rewriting of
the members of the object's own bank. -/
def editBank (this : Ref) (edit : List Nat → List Nat) (s : Sys) : Sys :=
  s.setBank this (edit (s.obj this).bank)

/-- The function `Parameters::LoadParametersFromEEPROM`; `eeprom` tells whether the pointer
argument is non-null. -/
def LoadParametersFromEEPROM (S : Schema) (this : Ref) (eeprom : Bool) (s : Sys) : Sys :=
  if !eeprom then s
  else
    let s := takeWrite s
    let s := takeRead s
    let r := s.eeprom.ReadData S.PARAMETERS_LENGTH
    let s := { s with eeprom := r.1 }
    let s := s.setBank this (memcpyAt (s.obj this).bank 0 r.2)
    let s := giveWrite s
    let s := giveRead s
    giveWrite s

/-- The function `Parameters::StoreParameters`. -/
def StoreParameters (S : Schema) (this : Ref) (s : Sys) : Sys :=
  if !(s.obj this).eeprom_ then s
  else
    let s := takeWrite s
    let r := s.eeprom.WriteData (readBytes (s.obj this).bank 0 S.PARAMETERS_LENGTH)
    let s := { s with eeprom := r.1 }
    giveWrite s

/-- The function `Parameters::AttachEEPROM`; `eeprom` tells whether the pointer argument is
non-null. `EnableSection` reserves the section and has no effect on the model. With
`paramsGlobal` null the source dereferences a null pointer; the model returns. -/
def AttachEEPROM (S : Schema) (this : Ref) (eeprom : Bool) (s : Sys) : Sys :=
  if !eeprom then s
  else
    match s.paramsGlobal with
    | none => s
    | some g =>
      let s := s.setObj Ref.global { g with eeprom_ := true }
      if ForceDefaultParameters (s.obj Ref.global).bank then
        StoreParameters S Ref.global s
      else
        let s := LoadParametersFromEEPROM S this eeprom s
        if getParametersSize S (s.obj this).bank = S.PARAMETERS_LENGTH then
          LoadParametersFromEEPROM S Ref.global eeprom s
        else
          StoreParameters S Ref.global s

/-- The bank of a newly constructed object: the default member initialisers, with
`ParametersSize` set to `PARAMETERS_LENGTH` by the constructor body. -/
def freshBank (S : Schema) : List Nat :=
  setParametersSize S S.defaults S.PARAMETERS_LENGTH

/-- The constructor `Parameters::Parameters(eeprom, com)` run on object number `i`, for the
case that both `xSemaphoreCreateBinary` calls succeed. The nested `new Parameters` runs the
constructor with `paramsGlobal == 1`, which only sets `ParametersSize`. The first
`xSemaphoreGive` on each new semaphore makes it available and is not entered in `semLog`. -/
def Parameters_ctor (S : Schema) (i : Nat) (eeprom com : Bool) (s : Sys) : Sys :=
  let s := s.setObj (Ref.cache i) ⟨S.defaults, 0, false, false⟩
  let s :=
    match s.paramsGlobal with
    | some _ => s
    | none =>
      let s := s.setObj Ref.global ⟨freshBank S, 0, false, false⟩
      let s := { s with readSemaphore_ := true }
      let s := { s with writeSemaphore_ := true }
      let s := if eeprom then AttachEEPROM S (Ref.cache i) eeprom s else s
      if com then s.setObj Ref.global { s.obj Ref.global with com_ := true } else s
  let s := s.setBank (Ref.cache i)
    (setParametersSize S (s.obj (Ref.cache i)).bank S.PARAMETERS_LENGTH)
  match s.paramsGlobal with
  | some _ => Refresh S (Ref.cache i) s
  | none => s

/-- The state before the first constructor call: `paramsGlobal` is null and nothing has
been transmitted; `e` is the EEPROM as the previous run left it. -/
def startup (e : EEPROM) : Sys :=
  { paramsGlobal := none
    objects := fun _ => default
    readSemaphore_ := false
    writeSemaphore_ := false
    semLog := []
    eeprom := e
    tx := [] }

/-! ## Message handlers -/

/-- The function `Parameters::SetParameter_Callback`; `param` is the registered `void *`
argument (`none` is the null pointer). -/
def SetParameter_Callback (S : Schema) (param : Option Ref) (payload : List Nat) (s : Sys) :
    Sys :=
  match param with
  | none => s
  | some params =>
    if params ≠ Ref.global then s
    else
      match s.paramsGlobal with
      | none => s
      | some _ =>
        if payload.length ≤ sizeofSetParameter then s
        else
          let msg_type := payload.getD 0 0
          let msg_param := payload.getD 1 0
          let msg_valueType := payload.getD 2 0
          let msg_arraySize := payload.getD 3 0
          let paramValueLengthBytes := (payload.length - sizeofSetParameter) % 65536
          let paramValue := payload.drop sizeofSetParameter
          let s := takeWrite s
          let s := takeRead s
          let s := s.setCounter Ref.global
            (((s.obj Ref.global).changeCounter_ + 1) % 4294967296)
          let look := LookupParameter S msg_type msg_param
          let valueType := look.1
          let paramPtr := look.2.1
          let arraySize := look.2.2
          let doCopy : Bool :=
            decide (valueType ≠ ValueType._unknown) &&
            (decide (arraySize = msg_arraySize) &&
             (decide (S.valueTypeCode valueType = msg_valueType) &&
              decide (arraySize * copyLength valueType = paramValueLengthBytes)))
          let s :=
            if doCopy then
              match paramPtr with
              | some p =>
                s.setBank Ref.global
                  (memcpyAt (s.obj Ref.global).bank (S.offset p)
                    (paramValue.take (arraySize * copyLength valueType)))
              | none => s
            else s
          let acknowledged := doCopy
          let s := transmit s (Msg.SetParameterAck msg_type msg_param acknowledged)
          let s := giveRead s
          giveWrite s

/-- The function `Parameters::GetParameter_Callback`; `msgBuf` tells whether `pvPortMalloc`
returns a buffer. -/
def GetParameter_Callback (S : Schema) (param : Option Ref) (payload : List Nat)
    (msgBuf : Bool) (s : Sys) : Sys :=
  match param with
  | none => s
  | some params =>
    if params ≠ Ref.global then s
    else
      match s.paramsGlobal with
      | none => s
      | some _ =>
        if payload.length ≠ sizeofGetParameter then s
        else
          let msg_type := payload.getD 0 0
          let msg_param := payload.getD 1 0
          let s := takeRead s
          let look := LookupParameter S msg_type msg_param
          let valueType := look.1
          let paramPtr := look.2.1
          let arraySize := look.2.2
          let s :=
            if valueType ≠ ValueType._unknown then
              if msgBuf then
                match paramPtr with
                | some p =>
                  transmit s (Msg.GetParameter msg_type msg_param valueType arraySize
                    (readBytes (s.obj Ref.global).bank (S.offset p)
                      (arraySize * copyLength valueType)))
                | none => s
              else s
            else s
          giveRead s

/-- The function `Parameters::StoreParameters_Callback`. -/
def StoreParameters_Callback (S : Schema) (param : Option Ref) (payload : List Nat)
    (s : Sys) : Sys :=
  match param with
  | none => s
  | some params =>
    if params ≠ Ref.global then s
    else
      match s.paramsGlobal with
      | none => s
      | some _ =>
        let _unused := payload
        let s := takeWrite s
        let s := takeRead s
        let r : Sys × Bool :=
          if (s.obj Ref.global).eeprom_ then
            let w := s.eeprom.WriteData
              (readBytes (s.obj Ref.global).bank 0 S.PARAMETERS_LENGTH)
            ({ s with eeprom := w.1 }, w.2)
          else (s, false)
        let s := r.1
        let s := giveRead s
        let s := giveWrite s
        transmit s (Msg.StoreParametersAck r.2)

/-- The `while (LeftToTransmit > 0)` loop of `DumpParameters_Callback` on 16-bit counters;
`paramPtr` is the offset of the read pointer in the bank. The result is `none` when `fuel`
iterations do not finish the loop. -/
def dumpLoop (S : Schema) (bank : List Nat) :
    Nat → Nat → Nat → Sys → Option Sys
  | fuel, LeftToTransmit, paramPtr, s =>
    if LeftToTransmit > 0 then
      match fuel with
      | 0 => none
      | fuel + 1 =>
        let TransmitLength :=
          if LeftToTransmit > S.LSPC_MAXIMUM_PACKAGE_LENGTH then
            S.LSPC_MAXIMUM_PACKAGE_LENGTH % 65536
          else LeftToTransmit
        let s := transmit s (Msg.DumpParametersData (readBytes bank paramPtr TransmitLength))
        dumpLoop S bank fuel ((LeftToTransmit + 65536 - TransmitLength) % 65536)
          (paramPtr + TransmitLength) s
    else some s

/-- The function `Parameters::DumpParameters_Callback`, with `fuel` bounding the iterations
of its loop. Both header fields are 16-bit. -/
def DumpParameters_Callback (S : Schema) (fuel : Nat) (param : Option Ref)
    (payload : List Nat) (s : Sys) : Option Sys :=
  match param with
  | none => some s
  | some params =>
    if params ≠ Ref.global then some s
    else
      match s.paramsGlobal with
      | none => some s
      | some g =>
        let _unused := payload
        let s := takeRead s
        let parameters_size_bytes := S.PARAMETERS_LENGTH % 65536
        let packages_to_follow :=
          (parameters_size_bytes / S.LSPC_MAXIMUM_PACKAGE_LENGTH +
            (if parameters_size_bytes % S.LSPC_MAXIMUM_PACKAGE_LENGTH > 0 then 1 else 0)) % 65536
        let s := transmit s (Msg.DumpParametersHeader parameters_size_bytes packages_to_follow)
        match dumpLoop S g.bank fuel (S.PARAMETERS_LENGTH % 65536) 0 s with
        | none => none
        | some s => some (giveRead s)

/-! ## A concrete schema and state -/

/-- A layout for evaluation: a 52-byte bank, the wire codes of the spec, 20-byte fragments. -/
def demoSchema : Schema where
  PARAMETERS_LENGTH := 52
  LSPC_MAXIMUM_PACKAGE_LENGTH := 20
  groupCode := fun g =>
    match g with
    | Group.debug => 0
    | Group.behavioural => 1
    | Group.controller => 2
    | Group.estimator => 3
    | Group.model => 4
    | Group.test => 5
  paramCode := fun p =>
    match p with
    | Param.EnableLogOutput => 0
    | Param.EnableRawSensorOutput => 1
    | Param.tmp => 0
    | Param.tmp2 => 1
    | Param.IndependentHeading => 0
    | Param.YawVelocityBraking => 1
    | Param.StepTestEnabled => 2
    | Param.VelocityControllerEnabled => 3
    | Param.JoystickVelocityControl => 4
    | Param.ControllerSampleRate => 0
    | Param.mode => 1
    | Param.type => 2
    | Param.EnableTorqueLPF => 3
    | Param.EstimatorSampleRate => 0
    | Param.EnableSensorLPFfilters => 1
    | Param.EnableSoftwareLPFfilters => 2
    | Param.CreateQdotFromQDifference => 3
    | Param.UseMadgwick => 4
    | Param.UseVelocityEstimator => 5
    | Param.EstimateCOM => 6
    | Param.l => 0
    | Param.Mk => 1
    | Param.Mb => 2
  valueTypeCode := fun t =>
    match t with
    | ValueType._bool => 0
    | ValueType._float => 1
    | ValueType._uint8 => 2
    | ValueType._uint16 => 3
    | ValueType._uint32 => 4
    | ValueType._unknown => 255
  offset := fun p =>
    match p with
    | Param.EnableLogOutput => 4
    | Param.EnableRawSensorOutput => 5
    | Param.IndependentHeading => 6
    | Param.YawVelocityBraking => 7
    | Param.StepTestEnabled => 8
    | Param.VelocityControllerEnabled => 9
    | Param.JoystickVelocityControl => 10
    | Param.ControllerSampleRate => 12
    | Param.type => 16
    | Param.mode => 17
    | Param.EnableTorqueLPF => 18
    | Param.EstimatorSampleRate => 20
    | Param.EnableSensorLPFfilters => 24
    | Param.EnableSoftwareLPFfilters => 25
    | Param.CreateQdotFromQDifference => 26
    | Param.UseMadgwick => 27
    | Param.UseVelocityEstimator => 28
    | Param.EstimateCOM => 29
    | Param.l => 32
    | Param.Mk => 36
    | Param.Mb => 40
    | Param.tmp => 44
    | Param.tmp2 => 48
  sizeOffset := 2
  defaults := 1 :: List.replicate 51 0

/-- An EEPROM whose section holds `image` and whose writes complete. -/
def demoEEPROM (image : List Nat) : EEPROM :=
  { image := image, writeCompletes := true, written := [], reads := 0 }

/-- The state after the first object (number 0, with an EEPROM and a link) and a second
object (number 1) have been constructed on a blank EEPROM. -/
def demoSys : Sys :=
  Parameters_ctor demoSchema 1 false false
    (Parameters_ctor demoSchema 0 true true (startup (demoEEPROM (List.replicate 52 255))))


/-! ## Definitions used in the statements -/

/-- The demonstration layout with another bank length and fragment size. -/
def dumpSchema (L M : Nat) : Schema :=
  { demoSchema with PARAMETERS_LENGTH := L, LSPC_MAXIMUM_PACKAGE_LENGTH := M }

/-- A state whose canonical bank holds the bytes `1, 2, ..., L`. -/
def dumpSys (L : Nat) : Sys :=
  { paramsGlobal := some ⟨(List.range L).map (fun k => k + 1), 0, false, true⟩
    objects := fun _ => default
    readSemaphore_ := true
    writeSemaphore_ := true
    semLog := []
    eeprom := demoEEPROM []
    tx := [] }

/-- The demonstration layout with all default initialisers zero, so that the flag
`ForceDefaultParameters` is clear. -/
def quietSchema : Schema :=
  { demoSchema with defaults := List.replicate 52 0 }

/-- The state inside the constructor of the first object (number `i`) at its call of
`AttachEEPROM`: the canonical object has just been created and both semaphores given. -/
def createdSys (S : Schema) (i : Nat) (e : EEPROM) : Sys :=
  { paramsGlobal := some ⟨freshBank S, 0, false, false⟩
    objects := Function.update (fun _ => default) i ⟨S.defaults, 0, false, false⟩
    readSemaphore_ := true
    writeSemaphore_ := true
    semLog := []
    eeprom := e
    tx := [] }

/-- A persisted image of the demonstration layout: flag clear, length field 52,
`controller.mode` 2. -/
def demoImage : List Nat :=
  memcpyAt (memcpyAt (List.replicate 52 0) 2 (le16 52)) 17 [2]

/-- Modelled from the spec: the byte width per primitive type as section 4.1 lists it
(bool=1, uint8=1, uint16=2, uint32=4, float32=4). -/
def typeWidth : ValueType → Nat
  | ValueType._bool => 1
  | ValueType._uint8 => 1
  | ValueType._uint16 => 2
  | ValueType._uint32 => 4
  | ValueType._float => 4
  | ValueType._unknown => 0

/-- The quotient `a / b` rounded up, the `ceil(a / b)` of the spec. -/
def ceilDiv (a b : Nat) : Nat :=
  (a + b - 1) / b

/-- What `LookupParameter` can return: the unknown sentinel with a null pointer, or a row of
the registry table. -/
def LookupResult (r : ValueType × Option Param × Nat) : Prop :=
  r = (ValueType._unknown, none, 1) ∨
  ∃ p, p ∈ allParams ∧ r = (registryType p, some p, 1)

/-- The group whose `switch` in `LookupParameter` holds the `case` of a parameter. -/
def groupOf : Param → Group
  | Param.EnableLogOutput => Group.debug
  | Param.EnableRawSensorOutput => Group.debug
  | Param.tmp => Group.test
  | Param.tmp2 => Group.test
  | Param.IndependentHeading => Group.behavioural
  | Param.YawVelocityBraking => Group.behavioural
  | Param.StepTestEnabled => Group.behavioural
  | Param.VelocityControllerEnabled => Group.behavioural
  | Param.JoystickVelocityControl => Group.behavioural
  | Param.ControllerSampleRate => Group.controller
  | Param.mode => Group.controller
  | Param.type => Group.controller
  | Param.EnableTorqueLPF => Group.controller
  | Param.EstimatorSampleRate => Group.estimator
  | Param.EnableSensorLPFfilters => Group.estimator
  | Param.EnableSoftwareLPFfilters => Group.estimator
  | Param.CreateQdotFromQDifference => Group.estimator
  | Param.UseMadgwick => Group.estimator
  | Param.UseVelocityEstimator => Group.estimator
  | Param.EstimateCOM => Group.estimator
  | Param.l => Group.model
  | Param.Mk => Group.model
  | Param.Mb => Group.model

/-- The pair (group, id) is a row of the compiled registry table: some `case` of
`LookupParameter` carries this id under this group. -/
def InRegistry (S : Schema) (type param : Nat) : Prop :=
  ∃ p ∈ allParams, type = S.groupCode (groupOf p) ∧ param = S.paramCode p

instance (S : Schema) (type param : Nat) : Decidable (InRegistry S type param) := by
  unfold InRegistry
  infer_instance

/-- Where a lookup result comes from: a non-null member pointer is only returned under the
codes of its own `case`, and a null pointer only together with the unknown type. -/
def LookupOrigin (S : Schema) (type param : Nat) (r : ValueType × Option Param × Nat) : Prop :=
  (∀ p, r.2.1 = some p → type = S.groupCode (groupOf p) ∧ param = S.paramCode p) ∧
  (r.2.1 = none → r = (ValueType._unknown, none, 1))

/-- Modelled from the spec: the size in bytes of a registered member. The members are
declared in `Parameters.h`, which is missing; by the data model of the spec each field has
one of the primitive types and an array length of 1, so its size is the byte width of the
type the registry gives it. -/
def fieldSize (p : Param) : Nat :=
  typeWidth (registryType p)

/-- The registered members lie apart in the bank, as the members of a struct do: each one
starts after the flag byte `ForceDefaultParameters`, does not meet the two bytes of
`ParametersSize`, and does not meet any other registered member. -/
def Schema.FieldsApart (S : Schema) : Prop :=
  ∀ p ∈ allParams,
    1 ≤ S.offset p ∧
    (S.offset p + fieldSize p ≤ S.sizeOffset ∨ S.sizeOffset + 2 ≤ S.offset p) ∧
    ∀ q ∈ allParams, q ≠ p →
      (S.offset p + fieldSize p ≤ S.offset q ∨ S.offset q + fieldSize q ≤ S.offset p)

instance (S : Schema) : Decidable S.FieldsApart := by
  unfold Schema.FieldsApart
  infer_instance

/-! # Theorems -/

/-! ## Lemmas on bytes and on the registry -/

theorem copyLength_eq_typeWidth (t : ValueType) : copyLength t = typeWidth t := by
  cases t <;> rfl

theorem memcpyAt_bank (mem src : List Nat) (h : mem.length ≤ src.length) :
    memcpyAt mem 0 src = src := by
  simp [memcpyAt, List.drop_eq_nil_of_le h]

theorem readBytes_bank (mem : List Nat) (n : Nat) (h : mem.length ≤ n) :
    readBytes mem 0 n = mem := by
  simp [readBytes, List.take_of_length_le h]

theorem length_memcpyAt (mem src : List Nat) (off : Nat) (h : off + src.length ≤ mem.length) :
    (memcpyAt mem off src).length = mem.length := by
  simp [memcpyAt]
  omega

theorem readBytes_memcpyAt (mem src : List Nat) (off : Nat) (h : off ≤ mem.length) :
    readBytes (memcpyAt mem off src) off src.length = src := by
  have h1 : (mem.take off).length = off := by simp [h]
  simp only [readBytes, memcpyAt, List.append_assoc]
  rw [List.drop_append_of_le_length (by omega)]
  rw [List.drop_of_length_le (by omega)]
  simp

theorem LookupResult_ite (c : Prop) [Decidable c] (a b : ValueType × Option Param × Nat)
    (ha : LookupResult a) (hb : LookupResult b) : LookupResult (if c then a else b) := by
  by_cases h : c
  · simpa [h] using ha
  · simpa [h] using hb

theorem LookupResult_row (t : ValueType) (p : Param) (ht : t = registryType p)
    (hp : p ∈ allParams) : LookupResult (t, some p, 1) := by
  subst ht
  exact Or.inr ⟨p, hp, rfl⟩

theorem LookupParameter_cases (S : Schema) (type param : Nat) :
    LookupResult (LookupParameter S type param) := by
  unfold LookupParameter
  repeat' apply LookupResult_ite
  all_goals
    first
    | exact Or.inl rfl
    | exact LookupResult_row _ _ rfl (by simp [allParams])

theorem LookupParameter_registered (S : Schema) (type param : Nat)
    (h : (LookupParameter S type param).1 ≠ ValueType._unknown) :
    ∃ p, p ∈ allParams ∧ LookupParameter S type param = (registryType p, some p, 1) := by
  rcases LookupParameter_cases S type param with h0 | h1
  · rw [h0] at h
    exact absurd rfl h
  · exact h1

/-! ## The SetParameter and GetParameter handlers -/

/-- The handler on a request longer than the header, when the registry knows the
parameter: the state it returns. -/
theorem SetParameter_Callback_registered (S : Schema) (s : Sys) (g : Obj)
    (payload : List Nat) (p : Param) (hg : s.paramsGlobal = some g)
    (hlen : sizeofSetParameter < payload.length)
    (hlook : LookupParameter S (payload.getD 0 0) (payload.getD 1 0) =
      (registryType p, some p, 1)) :
    SetParameter_Callback S (some Ref.global) payload s =
      (if payload.getD 3 0 = 1 ∧
          S.valueTypeCode (registryType p) = payload.getD 2 0 ∧
          copyLength (registryType p) = (payload.length - sizeofSetParameter) % 65536 then
        { s with
          paramsGlobal := some
            { g with
              bank := memcpyAt g.bank (S.offset p)
                ((payload.drop sizeofSetParameter).take (copyLength (registryType p)))
              changeCounter_ := (g.changeCounter_ + 1) % 4294967296 }
          readSemaphore_ := true
          writeSemaphore_ := true
          semLog := s.semLog ++ [SemEvent.takeWrite, SemEvent.takeRead, SemEvent.giveRead,
            SemEvent.giveWrite]
          tx := s.tx ++ [Msg.SetParameterAck (payload.getD 0 0) (payload.getD 1 0) true] }
      else
        { s with
          paramsGlobal := some { g with changeCounter_ := (g.changeCounter_ + 1) % 4294967296 }
          readSemaphore_ := true
          writeSemaphore_ := true
          semLog := s.semLog ++ [SemEvent.takeWrite, SemEvent.takeRead, SemEvent.giveRead,
            SemEvent.giveWrite]
          tx := s.tx ++ [Msg.SetParameterAck (payload.getD 0 0) (payload.getD 1 0) false] }) := by
  have hne : registryType p ≠ ValueType._unknown := by cases p <;> simp [registryType]
  have hlen2 : ¬ payload.length ≤ sizeofSetParameter := by omega
  simp only [SetParameter_Callback, hg, hlen2, hlook]
  by_cases hc : payload.getD 3 0 = 1 ∧
          S.valueTypeCode (registryType p) = payload.getD 2 0 ∧
          copyLength (registryType p) = (payload.length - sizeofSetParameter) % 65536
  · rw [if_pos hc]
    obtain ⟨h1, h2, h3⟩ := hc
    simp only [List.getD_eq_getElem?_getD] at h1 h2
    simp [Sys.obj, Sys.setObj, Sys.setBank, Sys.setCounter, takeWrite, takeRead, giveRead,
      giveWrite, transmit, hne, h1, h2, ← h3, hg]
  · rw [if_neg hc]
    have hd : (decide (registryType p ≠ ValueType._unknown) &&
            (decide (1 = payload.getD 3 0) &&
             (decide (S.valueTypeCode (registryType p) = payload.getD 2 0) &&
              decide (1 * copyLength (registryType p) =
                (payload.length - sizeofSetParameter) % 65536)))) = false := by
      rw [Bool.eq_false_iff]
      intro h
      simp only [Bool.and_eq_true, decide_eq_true_eq, one_mul] at h
      exact hc ⟨h.2.1.symm, h.2.2.1, h.2.2.2⟩
    simp only [hd]
    simp [Sys.obj, Sys.setObj, Sys.setBank, Sys.setCounter, takeWrite, takeRead, giveRead,
      giveWrite, transmit, hg]

/-- The handler on a request longer than the header, when the registry does not know the
parameter: the state it returns. -/
theorem SetParameter_Callback_unknown (S : Schema) (s : Sys) (g : Obj)
    (payload : List Nat) (hg : s.paramsGlobal = some g)
    (hlen : sizeofSetParameter < payload.length)
    (hlook : LookupParameter S (payload.getD 0 0) (payload.getD 1 0) =
      (ValueType._unknown, none, 1)) :
    SetParameter_Callback S (some Ref.global) payload s =
      { s with
        paramsGlobal := some { g with changeCounter_ := (g.changeCounter_ + 1) % 4294967296 }
        readSemaphore_ := true
        writeSemaphore_ := true
        semLog := s.semLog ++ [SemEvent.takeWrite, SemEvent.takeRead, SemEvent.giveRead,
          SemEvent.giveWrite]
        tx := s.tx ++ [Msg.SetParameterAck (payload.getD 0 0) (payload.getD 1 0) false] } := by
  have hlen2 : ¬ payload.length ≤ sizeofSetParameter := by omega
  simp only [SetParameter_Callback, hg, hlen2, hlook]
  simp [Sys.obj, Sys.setObj, Sys.setBank, Sys.setCounter, takeWrite, takeRead, giveRead,
    giveWrite, transmit, hg]

/-- The Get handler on a well-sized request for a parameter the registry knows. -/
theorem GetParameter_Callback_registered (S : Schema) (s : Sys) (g : Obj)
    (type param : Nat) (msgBuf : Bool) (p : Param) (hg : s.paramsGlobal = some g)
    (hlook : LookupParameter S type param = (registryType p, some p, 1)) :
    GetParameter_Callback S (some Ref.global) [type, param] msgBuf s =
      { s with
        readSemaphore_ := true
        semLog := s.semLog ++ [SemEvent.takeRead, SemEvent.giveRead]
        tx := if msgBuf then
            s.tx ++ [Msg.GetParameter type param (registryType p) 1
              (readBytes g.bank (S.offset p) (copyLength (registryType p)))]
          else s.tx } := by
  have hne : registryType p ≠ ValueType._unknown := by cases p <;> simp [registryType]
  cases msgBuf <;>
    simp [GetParameter_Callback, hg, sizeofGetParameter, hlook, hne, Sys.obj, takeRead,
      giveRead, transmit]

/-- C1 (amended): for every registered (group, id) with registry type `t` and array length
`n` and every value `v` of `n * width t` bytes, the SetParameter handler transmits
`SetParameterAck` with `acknowledged = true`, and a GetParameter handled next, when
`pvPortMalloc` returns a buffer, transmits a reply whose value bytes are `v`; when
`pvPortMalloc` returns null it transmits nothing. -/
theorem C1_set_then_get_round_trip (S : Schema) (s : Sys) (g : Obj) (type param : Nat)
    (t : ValueType) (n : Nat) (v : List Nat)
    (hS : S.FieldsInBank) (hg : s.paramsGlobal = some g)
    (hbank : g.bank.length = S.PARAMETERS_LENGTH)
    (ht : (LookupParameter S type param).1 = t)
    (hn : (LookupParameter S type param).2.2 = n)
    (hreg : t ≠ ValueType._unknown)
    (hv : v.length = n * typeWidth t) :
    (SetParameter_Callback S (some Ref.global)
        (type :: param :: S.valueTypeCode t :: n :: v) s).tx =
      s.tx ++ [Msg.SetParameterAck type param true] ∧
    (GetParameter_Callback S (some Ref.global) [type, param] true
        (SetParameter_Callback S (some Ref.global)
          (type :: param :: S.valueTypeCode t :: n :: v) s)).tx =
      (SetParameter_Callback S (some Ref.global)
          (type :: param :: S.valueTypeCode t :: n :: v) s).tx ++
        [Msg.GetParameter type param t n v] ∧
    (GetParameter_Callback S (some Ref.global) [type, param] false
        (SetParameter_Callback S (some Ref.global)
          (type :: param :: S.valueTypeCode t :: n :: v) s)).tx =
      (SetParameter_Callback S (some Ref.global)
          (type :: param :: S.valueTypeCode t :: n :: v) s).tx := by
  obtain ⟨p, hp, hlook⟩ := LookupParameter_registered S type param (by rw [ht]; exact hreg)
  rw [hlook] at ht hn
  simp only at ht hn
  subst ht
  subst hn
  rw [one_mul, ← copyLength_eq_typeWidth] at hv
  have hin := hS p hp
  have hpos : 0 < copyLength (registryType p) := by cases p <;> simp [registryType, copyLength]
  have hset := SetParameter_Callback_registered S s g
    (type :: param :: S.valueTypeCode (registryType p) :: 1 :: v) p hg
    (by simp [sizeofSetParameter]; omega) (by simpa using hlook)
  have hcond : (type :: param :: S.valueTypeCode (registryType p) :: 1 :: v).getD 3 0 = 1 ∧
      S.valueTypeCode (registryType p) =
        (type :: param :: S.valueTypeCode (registryType p) :: 1 :: v).getD 2 0 ∧
      copyLength (registryType p) =
        ((type :: param :: S.valueTypeCode (registryType p) :: 1 :: v).length -
          sizeofSetParameter) % 65536 := by
    refine ⟨by simp, by simp, ?_⟩
    simp only [List.length_cons, sizeofSetParameter, hv]
    have : copyLength (registryType p) ≤ 4 := by cases p <;> simp [registryType, copyLength]
    omega
  rw [if_pos hcond] at hset
  rw [hset]
  refine ⟨rfl, ?_, ?_⟩
  · rw [GetParameter_Callback_registered S _ _ type param true p rfl hlook]
    simp only [if_true, List.getD_cons_zero]
    have htake : ((type :: param :: S.valueTypeCode (registryType p) :: 1 :: v).drop
        sizeofSetParameter).take (copyLength (registryType p)) = v := by
      simp [sizeofSetParameter, ← hv]
    rw [htake]
    have hread : readBytes (memcpyAt g.bank (S.offset p) v) (S.offset p)
        (copyLength (registryType p)) = v := by
      rw [← hv]
      exact readBytes_memcpyAt g.bank v (S.offset p) (by omega)
    simp [hread]
  · rw [GetParameter_Callback_registered S _ _ type param false p rfl hlook]
    simp

/-- C1, the claim as stated fails: after an acknowledged Set of `controller.mode`, a
GetParameter handled while `pvPortMalloc` returns null transmits nothing. -/
theorem C1_no_reply_without_buffer :
    (LookupParameter demoSchema 2 1).1 = ValueType._uint8 ∧
    (SetParameter_Callback demoSchema (some Ref.global) [2, 1, 2, 1, 2] demoSys).tx =
      [Msg.SetParameterAck 2 1 true] ∧
    (GetParameter_Callback demoSchema (some Ref.global) [2, 1] false
        (SetParameter_Callback demoSchema (some Ref.global) [2, 1, 2, 1, 2] demoSys)).tx =
      [Msg.SetParameterAck 2 1 true] := by
  decide

/-- C1, an instance of the round trip: `controller.mode` of the demonstration layout. -/
theorem C1_set_then_get_round_trip_witness :
    (SetParameter_Callback demoSchema (some Ref.global)
        (2 :: 1 :: demoSchema.valueTypeCode ValueType._uint8 :: 1 :: [2]) demoSys).tx =
      demoSys.tx ++ [Msg.SetParameterAck 2 1 true] ∧
    (GetParameter_Callback demoSchema (some Ref.global) [2, 1] true
        (SetParameter_Callback demoSchema (some Ref.global)
          (2 :: 1 :: demoSchema.valueTypeCode ValueType._uint8 :: 1 :: [2]) demoSys)).tx =
      (SetParameter_Callback demoSchema (some Ref.global)
          (2 :: 1 :: demoSchema.valueTypeCode ValueType._uint8 :: 1 :: [2]) demoSys).tx ++
        [Msg.GetParameter 2 1 ValueType._uint8 1 [2]] ∧
    (GetParameter_Callback demoSchema (some Ref.global) [2, 1] false
        (SetParameter_Callback demoSchema (some Ref.global)
          (2 :: 1 :: demoSchema.valueTypeCode ValueType._uint8 :: 1 :: [2]) demoSys)).tx =
      (SetParameter_Callback demoSchema (some Ref.global)
          (2 :: 1 :: demoSchema.valueTypeCode ValueType._uint8 :: 1 :: [2]) demoSys).tx :=
  C1_set_then_get_round_trip demoSchema demoSys (demoSys.paramsGlobal.getD default) 2 1
    ValueType._uint8 1 [2] (by decide) (by decide) (by decide) (by decide) (by decide)
    (by decide) (by decide)

/-- C2 (amended): a SetParameter request addressed to a registered (group, id) that carries
a non-empty value and whose declared type differs from the registry type, or whose declared
array length differs from the registry array length, or whose value length (as the handler
stores it, modulo 2^16) differs from arrayLength*typeWidth, leaves every byte of the
canonical bank unchanged and transmits `SetParameterAck` with `acknowledged = false`; a
request with an empty value leaves the whole state unchanged and transmits nothing. -/
theorem C2_mismatch_rejected (S : Schema) (s : Sys) (g : Obj) (payload : List Nat)
    (hg : s.paramsGlobal = some g)
    (hreg : (LookupParameter S (payload.getD 0 0) (payload.getD 1 0)).1 ≠ ValueType._unknown)
    (hbad : payload.getD 2 0 ≠
          S.valueTypeCode (LookupParameter S (payload.getD 0 0) (payload.getD 1 0)).1 ∨
        payload.getD 3 0 ≠ (LookupParameter S (payload.getD 0 0) (payload.getD 1 0)).2.2 ∨
        (payload.length - sizeofSetParameter) % 65536 ≠
          (LookupParameter S (payload.getD 0 0) (payload.getD 1 0)).2.2 *
            typeWidth (LookupParameter S (payload.getD 0 0) (payload.getD 1 0)).1) :
    (sizeofSetParameter < payload.length →
      (SetParameter_Callback S (some Ref.global) payload s).paramsGlobal.map Obj.bank =
          some g.bank ∧
        (SetParameter_Callback S (some Ref.global) payload s).tx =
          s.tx ++ [Msg.SetParameterAck (payload.getD 0 0) (payload.getD 1 0) false]) ∧
    (payload.length ≤ sizeofSetParameter →
      SetParameter_Callback S (some Ref.global) payload s = s) := by
  constructor
  · intro hlen
    obtain ⟨p, _, hlook⟩ := LookupParameter_registered S _ _ hreg
    rw [hlook] at hbad
    simp only [one_mul, ← copyLength_eq_typeWidth] at hbad
    have hset := SetParameter_Callback_registered S s g payload p hg hlen hlook
    have hcond : ¬ (payload.getD 3 0 = 1 ∧
        S.valueTypeCode (registryType p) = payload.getD 2 0 ∧
        copyLength (registryType p) = (payload.length - sizeofSetParameter) % 65536) := by
      rintro ⟨h1, h2, h3⟩
      rcases hbad with h | h | h
      · exact h h2.symm
      · exact h h1
      · exact h h3.symm
    rw [if_neg hcond] at hset
    rw [hset]
    exact ⟨rfl, rfl⟩
  · intro hlen
    simp [SetParameter_Callback, hg, hlen]

/-- C2, the claim as stated fails: a SetParameter for the registered `controller.mode` with
an empty value (length 0, not 1) gets no `SetParameterAck` at all. -/
theorem C2_empty_value_gets_no_ack :
    (LookupParameter demoSchema 2 1).1 = ValueType._uint8 ∧
    (LookupParameter demoSchema 2 1).2.2 = 1 ∧
    ([2, 1, 2, 1].drop sizeofSetParameter).length ≠ 1 * typeWidth ValueType._uint8 ∧
    (SetParameter_Callback demoSchema (some Ref.global) [2, 1, 2, 1] demoSys).tx = [] := by
  decide

/-- C2, an instance: a two-byte value for the one-byte `controller.mode`. -/
theorem C2_mismatch_rejected_witness :
    (sizeofSetParameter < [2, 1, 2, 1, 7, 7].length →
      (SetParameter_Callback demoSchema (some Ref.global) [2, 1, 2, 1, 7, 7]
          demoSys).paramsGlobal.map Obj.bank = some (demoSys.paramsGlobal.getD default).bank ∧
        (SetParameter_Callback demoSchema (some Ref.global) [2, 1, 2, 1, 7, 7] demoSys).tx =
          demoSys.tx ++ [Msg.SetParameterAck ([2, 1, 2, 1, 7, 7].getD 0 0)
            ([2, 1, 2, 1, 7, 7].getD 1 0) false]) ∧
    ([2, 1, 2, 1, 7, 7].length ≤ sizeofSetParameter →
      SetParameter_Callback demoSchema (some Ref.global) [2, 1, 2, 1, 7, 7] demoSys = demoSys) :=
  C2_mismatch_rejected demoSchema demoSys (demoSys.paramsGlobal.getD default)
    [2, 1, 2, 1, 7, 7] (by decide) (by decide) (by decide)

/-! ## Exactly one reply -/

/-- The state the Store handler returns. -/
theorem StoreParameters_Callback_eq (S : Schema) (s : Sys) (g : Obj) (payload : List Nat)
    (hg : s.paramsGlobal = some g) :
    StoreParameters_Callback S (some Ref.global) payload s =
      { s with
        readSemaphore_ := true
        writeSemaphore_ := true
        semLog := s.semLog ++ [SemEvent.takeWrite, SemEvent.takeRead, SemEvent.giveRead,
          SemEvent.giveWrite]
        eeprom := if g.eeprom_ then
            (s.eeprom.WriteData (readBytes g.bank 0 S.PARAMETERS_LENGTH)).1
          else s.eeprom
        tx := s.tx ++ [Msg.StoreParametersAck (g.eeprom_ && s.eeprom.writeCompletes)] } := by
  cases hE : g.eeprom_ <;>
    simp [StoreParameters_Callback, hg, hE, Sys.obj, takeWrite, takeRead, giveRead, giveWrite,
      transmit, EEPROM.WriteData]

/-- C10 (amended): for every request payload longer than the fixed request header the
SetParameter handler transmits exactly one `SetParameterAck`, and for a payload no longer
than the header it transmits nothing and changes nothing; the StoreParameters handler
transmits exactly one `StoreParametersAck` for every payload. -/
theorem C10_one_reply (S : Schema) (s : Sys) (g : Obj) (payload : List Nat)
    (hg : s.paramsGlobal = some g) :
    (sizeofSetParameter < payload.length →
      ∃ a, (SetParameter_Callback S (some Ref.global) payload s).tx =
        s.tx ++ [Msg.SetParameterAck (payload.getD 0 0) (payload.getD 1 0) a]) ∧
    (payload.length ≤ sizeofSetParameter →
      SetParameter_Callback S (some Ref.global) payload s = s) ∧
    (∃ a, (StoreParameters_Callback S (some Ref.global) payload s).tx =
        s.tx ++ [Msg.StoreParametersAck a]) := by
  refine ⟨?_, ?_, ?_⟩
  · intro hlen
    rcases LookupParameter_cases S (payload.getD 0 0) (payload.getD 1 0) with h0 | ⟨p, _, hlook⟩
    · rw [SetParameter_Callback_unknown S s g payload hg hlen h0]
      exact ⟨_, rfl⟩
    · rw [SetParameter_Callback_registered S s g payload p hg hlen hlook]
      split_ifs
      · exact ⟨_, rfl⟩
      · exact ⟨_, rfl⟩
  · intro hlen
    simp [SetParameter_Callback, hg, hlen]
  · rw [StoreParameters_Callback_eq S s g payload hg]
    exact ⟨_, rfl⟩

/-- C10, the claim as stated fails: on a three-byte payload, shorter than the request
header, the SetParameter handler transmits no `SetParameterAck`. -/
theorem C10_short_payload_gets_no_ack :
    (SetParameter_Callback demoSchema (some Ref.global) [2, 1, 2] demoSys).tx = [] ∧
    (SetParameter_Callback demoSchema (some Ref.global) [] demoSys).tx = [] := by
  decide

/-- C10, an instance on the demonstration state. -/
theorem C10_one_reply_witness :
    (sizeofSetParameter < [2, 1, 2, 1, 2].length →
      ∃ a, (SetParameter_Callback demoSchema (some Ref.global) [2, 1, 2, 1, 2] demoSys).tx =
        demoSys.tx ++ [Msg.SetParameterAck ([2, 1, 2, 1, 2].getD 0 0)
          ([2, 1, 2, 1, 2].getD 1 0) a]) ∧
    ([2, 1, 2, 1, 2].length ≤ sizeofSetParameter →
      SetParameter_Callback demoSchema (some Ref.global) [2, 1, 2, 1, 2] demoSys = demoSys) ∧
    (∃ a, (StoreParameters_Callback demoSchema (some Ref.global) [2, 1, 2, 1, 2] demoSys).tx =
        demoSys.tx ++ [Msg.StoreParametersAck a]) :=
  C10_one_reply demoSchema demoSys (demoSys.paramsGlobal.getD default) [2, 1, 2, 1, 2]
    (by decide)

/-! ## DumpParameters -/

theorem ceilDiv_zero (M : Nat) (hM : 0 < M) : ceilDiv 0 M = 0 := by
  unfold ceilDiv
  exact Nat.div_eq_of_lt (by omega)

theorem ceilDiv_le (n M : Nat) (h0 : 0 < n) (hM : n ≤ M) : ceilDiv n M = 1 := by
  unfold ceilDiv
  exact Nat.div_eq_of_lt_le (by omega) (by omega)

theorem ceilDiv_step (n M : Nat) (hM : 0 < M) (h : M < n) :
    ceilDiv n M = ceilDiv (n - M) M + 1 := by
  unfold ceilDiv
  rw [← Nat.add_div_right _ hM]
  congr 1
  omega

/-- The number `ceilDiv a b` is the least `k` with `a ≤ k * b`. -/
theorem ceilDiv_le_iff (a b k : Nat) (hb : 0 < b) : ceilDiv a b ≤ k ↔ a ≤ k * b := by
  unfold ceilDiv
  rw [← Nat.lt_succ_iff, Nat.div_lt_iff_lt_mul hb, Nat.succ_mul]
  omega

theorem ceilDiv_eq (n M : Nat) (hM : 0 < M) :
    n / M + (if n % M > 0 then 1 else 0) = ceilDiv n M := by
  unfold ceilDiv
  have h1 := Nat.div_add_mod n M
  have h2 := Nat.mod_lt n hM
  have h3 := Nat.mul_comm M (n / M)
  symm
  by_cases h : n % M > 0
  · rw [if_pos h]
    exact Nat.div_eq_of_lt_le (by rw [Nat.add_mul]; omega) (by rw [Nat.add_mul, Nat.add_mul]; omega)
  · rw [if_neg h, Nat.add_zero]
    exact Nat.div_eq_of_lt_le (by omega) (by rw [Nat.add_mul]; omega)

theorem readBytes_split (mem : List Nat) (off a b : Nat) :
    readBytes mem off a ++ readBytes mem (off + a) b = readBytes mem off (a + b) := by
  simp [readBytes, List.take_add, List.drop_drop]

theorem length_readBytes (mem : List Nat) (off n : Nat) (h : off + n ≤ mem.length) :
    (readBytes mem off n).length = n := by
  simp [readBytes]
  omega

/-- The loop of the dump: with fuel for one iteration per byte it finishes, and it
transmits `ceilDiv left M` fragments that tile the `left` bytes from `paramPtr` on. -/
theorem dumpLoop_spec (S : Schema) (bank : List Nat) (hM : 0 < S.LSPC_MAXIMUM_PACKAGE_LENGTH)
    (left : Nat) :
    ∀ (fuel paramPtr : Nat) (s : Sys), left < 65536 → left ≤ fuel →
    ∃ frags : List (List Nat),
      dumpLoop S bank fuel left paramPtr s =
        some { s with tx := s.tx ++ frags.map Msg.DumpParametersData } ∧
      frags.length = ceilDiv left S.LSPC_MAXIMUM_PACKAGE_LENGTH ∧
      (paramPtr + left ≤ bank.length →
        frags.flatten = readBytes bank paramPtr left ∧
        (frags.map List.length).sum = left ∧
        (0 < left → ∃ init last, frags = init ++ [last] ∧
          (∀ f ∈ init, f.length = S.LSPC_MAXIMUM_PACKAGE_LENGTH) ∧
          1 ≤ last.length ∧ last.length ≤ S.LSPC_MAXIMUM_PACKAGE_LENGTH)) := by
  induction left using Nat.strong_induction_on with
  | _ left ih =>
    intro fuel paramPtr s hlt hfuel
    rcases Nat.eq_zero_or_pos left with h0 | hpos
    · subst h0
      refine ⟨[], ?_, ?_, ?_⟩
      · unfold dumpLoop
        simp
      · simp [ceilDiv_zero _ hM]
      · intro _
        simp [readBytes]
    · obtain ⟨f, rfl⟩ : ∃ f, fuel = f + 1 := ⟨fuel - 1, by omega⟩
      by_cases hbig : left > S.LSPC_MAXIMUM_PACKAGE_LENGTH
      · have hmod : S.LSPC_MAXIMUM_PACKAGE_LENGTH % 65536 = S.LSPC_MAXIMUM_PACKAGE_LENGTH :=
          Nat.mod_eq_of_lt (by omega)
        have hrest : (left + 65536 - S.LSPC_MAXIMUM_PACKAGE_LENGTH) % 65536 =
            left - S.LSPC_MAXIMUM_PACKAGE_LENGTH := by omega
        have hadd : S.LSPC_MAXIMUM_PACKAGE_LENGTH + (left - S.LSPC_MAXIMUM_PACKAGE_LENGTH) =
            left := by omega
        have hrpos : 0 < left - S.LSPC_MAXIMUM_PACKAGE_LENGTH := by omega
        have hin2 : paramPtr + left ≤ bank.length → paramPtr + S.LSPC_MAXIMUM_PACKAGE_LENGTH +
            (left - S.LSPC_MAXIMUM_PACKAGE_LENGTH) ≤ bank.length := by omega
        have hin1 : paramPtr + left ≤ bank.length →
            paramPtr + S.LSPC_MAXIMUM_PACKAGE_LENGTH ≤ bank.length := by omega
        have hlt1 : left - S.LSPC_MAXIMUM_PACKAGE_LENGTH < left := by omega
        have hlt2 : left - S.LSPC_MAXIMUM_PACKAGE_LENGTH < 65536 := by omega
        have hlt3 : left - S.LSPC_MAXIMUM_PACKAGE_LENGTH ≤ f := by omega
        obtain ⟨frags, hrun, hcount, hrestP⟩ :=
          ih (left - S.LSPC_MAXIMUM_PACKAGE_LENGTH) hlt1 f
            (paramPtr + S.LSPC_MAXIMUM_PACKAGE_LENGTH)
            (transmit s (Msg.DumpParametersData
              (readBytes bank paramPtr S.LSPC_MAXIMUM_PACKAGE_LENGTH)))
            hlt2 hlt3
        refine ⟨readBytes bank paramPtr S.LSPC_MAXIMUM_PACKAGE_LENGTH :: frags, ?_, ?_, ?_⟩
        · rw [dumpLoop]
          simp only [if_pos hpos, if_pos hbig, hmod, hrest, hrun]
          simp [transmit]
        · rw [List.length_cons, hcount, ← ceilDiv_step _ _ hM hbig]
        · intro hin
          have hlenA : (readBytes bank paramPtr S.LSPC_MAXIMUM_PACKAGE_LENGTH).length =
              S.LSPC_MAXIMUM_PACKAGE_LENGTH := length_readBytes _ _ _ (hin1 hin)
          obtain ⟨hflat, hsum, hshape⟩ := hrestP (hin2 hin)
          refine ⟨?_, ?_, ?_⟩
          · rw [List.flatten_cons, hflat, readBytes_split, hadd]
          · rw [List.map_cons, List.sum_cons, hsum, hlenA, hadd]
          · intro _
            obtain ⟨init, last, hfr, hinit, hl1, hl2⟩ := hshape hrpos
            refine ⟨readBytes bank paramPtr S.LSPC_MAXIMUM_PACKAGE_LENGTH :: init, last, ?_, ?_,
              hl1, hl2⟩
            · rw [hfr, List.cons_append]
            · intro x hx
              rcases List.mem_cons.mp hx with hx | hx
              · rw [hx, hlenA]
              · exact hinit x hx
      · have hle : left ≤ S.LSPC_MAXIMUM_PACKAGE_LENGTH := by omega
        have hrest : (left + 65536 - left) % 65536 = 0 := by omega
        refine ⟨[readBytes bank paramPtr left], ?_, ?_, ?_⟩
        · rw [dumpLoop]
          simp only [if_pos hpos, if_neg hbig, hrest]
          unfold dumpLoop
          simp [transmit]
        · simp [ceilDiv_le _ _ hpos hle]
        · intro hin
          have hlenA : (readBytes bank paramPtr left).length = left :=
            length_readBytes _ _ _ hin
          refine ⟨by simp, by simp [hlenA], ?_⟩
          intro _
          exact ⟨[], readBytes bank paramPtr left, rfl, by simp, by omega, by omega⟩

/-- The dump handler in terms of its loop. -/
theorem DumpParameters_Callback_eq (S : Schema) (fuel : Nat) (payload : List Nat) (s : Sys)
    (g : Obj) (hg : s.paramsGlobal = some g) :
    DumpParameters_Callback S fuel (some Ref.global) payload s =
      (dumpLoop S g.bank fuel (S.PARAMETERS_LENGTH % 65536) 0
        (transmit (takeRead s) (Msg.DumpParametersHeader (S.PARAMETERS_LENGTH % 65536)
          ((S.PARAMETERS_LENGTH % 65536 / S.LSPC_MAXIMUM_PACKAGE_LENGTH +
            (if S.PARAMETERS_LENGTH % 65536 % S.LSPC_MAXIMUM_PACKAGE_LENGTH > 0 then 1 else 0))
              % 65536)))).map giveRead := by
  simp only [DumpParameters_Callback, hg]
  simp only [ne_eq, not_true_eq_false, if_false]
  cases dumpLoop S g.bank fuel (S.PARAMETERS_LENGTH % 65536) 0
        (transmit (takeRead s) (Msg.DumpParametersHeader (S.PARAMETERS_LENGTH % 65536)
          ((S.PARAMETERS_LENGTH % 65536 / S.LSPC_MAXIMUM_PACKAGE_LENGTH +
            (if S.PARAMETERS_LENGTH % 65536 % S.LSPC_MAXIMUM_PACKAGE_LENGTH > 0 then 1 else 0))
              % 65536))) <;> rfl

theorem ceilDiv_le_self (n M : Nat) (hM : 0 < M) : ceilDiv n M ≤ n := by
  unfold ceilDiv
  rcases Nat.eq_zero_or_pos n with h | h
  · subst h
    rw [Nat.div_eq_of_lt (by omega)]
  · calc (n + M - 1) / M ≤ (n * M) / M := by
          apply Nat.div_le_div_right
          have := Nat.mul_le_mul h hM
          have h2 : n + M - 1 ≤ n * M := by
            rcases Nat.exists_eq_add_of_lt h with ⟨a, ha⟩
            rcases Nat.exists_eq_add_of_lt hM with ⟨b, hb⟩
            simp only [Nat.zero_add] at ha hb
            subst ha
            subst hb
            ring_nf
            omega
          exact h2
      _ = n := Nat.mul_div_cancel n hM

/-- C5: for a bank length `0 < L < 65536` and a maximum fragment size `M > 0`, the dump
handler (given fuel for its loop) returns, having transmitted first a header with
`totalLengthBytes = L` and `fragmentCount = ceil(L / M)` and after it exactly that many
fragment messages. -/
theorem C5_dump_header_and_fragment_count (S : Schema) (fuel : Nat) (payload : List Nat)
    (s : Sys) (g : Obj) (hg : s.paramsGlobal = some g)
    (hL0 : 0 < S.PARAMETERS_LENGTH) (hL : S.PARAMETERS_LENGTH < 65536)
    (hM : 0 < S.LSPC_MAXIMUM_PACKAGE_LENGTH) (hfuel : S.PARAMETERS_LENGTH ≤ fuel) :
    ∃ (s' : Sys) (frags : List (List Nat)),
      DumpParameters_Callback S fuel (some Ref.global) payload s = some s' ∧
      s'.tx = s.tx ++
        Msg.DumpParametersHeader S.PARAMETERS_LENGTH
          (ceilDiv S.PARAMETERS_LENGTH S.LSPC_MAXIMUM_PACKAGE_LENGTH) ::
        frags.map Msg.DumpParametersData ∧
      frags.length = ceilDiv S.PARAMETERS_LENGTH S.LSPC_MAXIMUM_PACKAGE_LENGTH := by
  have hmod : S.PARAMETERS_LENGTH % 65536 = S.PARAMETERS_LENGTH := Nat.mod_eq_of_lt hL
  have hc := ceilDiv_le_self S.PARAMETERS_LENGTH _ hM
  have hcmod : ceilDiv S.PARAMETERS_LENGTH S.LSPC_MAXIMUM_PACKAGE_LENGTH % 65536 =
      ceilDiv S.PARAMETERS_LENGTH S.LSPC_MAXIMUM_PACKAGE_LENGTH := Nat.mod_eq_of_lt (by omega)
  rw [DumpParameters_Callback_eq S fuel payload s g hg, hmod, ceilDiv_eq _ _ hM, hcmod]
  obtain ⟨frags, hrun, hcount, _⟩ := dumpLoop_spec S g.bank hM S.PARAMETERS_LENGTH fuel 0
    (transmit (takeRead s) (Msg.DumpParametersHeader S.PARAMETERS_LENGTH
      (ceilDiv S.PARAMETERS_LENGTH S.LSPC_MAXIMUM_PACKAGE_LENGTH))) hL hfuel
  refine ⟨_, frags, by rw [hrun]; rfl, ?_, hcount⟩
  simp [giveRead, transmit, takeRead]

/-- C5, instances: bank lengths 1, M, M+1 and 3*M for M = 4. -/
theorem C5_dump_header_and_fragment_count_witness :
    (∃ (s' : Sys) (frags : List (List Nat)),
      DumpParameters_Callback (dumpSchema 1 4) 1 (some Ref.global) [] (dumpSys 1) = some s' ∧
      s'.tx = (dumpSys 1).tx ++
        Msg.DumpParametersHeader (dumpSchema 1 4).PARAMETERS_LENGTH
          (ceilDiv (dumpSchema 1 4).PARAMETERS_LENGTH
            (dumpSchema 1 4).LSPC_MAXIMUM_PACKAGE_LENGTH) ::
        frags.map Msg.DumpParametersData ∧
      frags.length = ceilDiv (dumpSchema 1 4).PARAMETERS_LENGTH
        (dumpSchema 1 4).LSPC_MAXIMUM_PACKAGE_LENGTH) ∧
    (∃ (s' : Sys) (frags : List (List Nat)),
      DumpParameters_Callback (dumpSchema 4 4) 4 (some Ref.global) [] (dumpSys 4) = some s' ∧
      s'.tx = (dumpSys 4).tx ++
        Msg.DumpParametersHeader (dumpSchema 4 4).PARAMETERS_LENGTH
          (ceilDiv (dumpSchema 4 4).PARAMETERS_LENGTH
            (dumpSchema 4 4).LSPC_MAXIMUM_PACKAGE_LENGTH) ::
        frags.map Msg.DumpParametersData ∧
      frags.length = ceilDiv (dumpSchema 4 4).PARAMETERS_LENGTH
        (dumpSchema 4 4).LSPC_MAXIMUM_PACKAGE_LENGTH) ∧
    (∃ (s' : Sys) (frags : List (List Nat)),
      DumpParameters_Callback (dumpSchema 5 4) 5 (some Ref.global) [] (dumpSys 5) = some s' ∧
      s'.tx = (dumpSys 5).tx ++
        Msg.DumpParametersHeader (dumpSchema 5 4).PARAMETERS_LENGTH
          (ceilDiv (dumpSchema 5 4).PARAMETERS_LENGTH
            (dumpSchema 5 4).LSPC_MAXIMUM_PACKAGE_LENGTH) ::
        frags.map Msg.DumpParametersData ∧
      frags.length = ceilDiv (dumpSchema 5 4).PARAMETERS_LENGTH
        (dumpSchema 5 4).LSPC_MAXIMUM_PACKAGE_LENGTH) ∧
    (∃ (s' : Sys) (frags : List (List Nat)),
      DumpParameters_Callback (dumpSchema 12 4) 12 (some Ref.global) [] (dumpSys 12) = some s' ∧
      s'.tx = (dumpSys 12).tx ++
        Msg.DumpParametersHeader (dumpSchema 12 4).PARAMETERS_LENGTH
          (ceilDiv (dumpSchema 12 4).PARAMETERS_LENGTH
            (dumpSchema 12 4).LSPC_MAXIMUM_PACKAGE_LENGTH) ::
        frags.map Msg.DumpParametersData ∧
      frags.length = ceilDiv (dumpSchema 12 4).PARAMETERS_LENGTH
        (dumpSchema 12 4).LSPC_MAXIMUM_PACKAGE_LENGTH) :=
  ⟨C5_dump_header_and_fragment_count (dumpSchema 1 4) 1 [] (dumpSys 1) _ rfl
      (by decide) (by decide) (by decide) (by decide),
   C5_dump_header_and_fragment_count (dumpSchema 4 4) 4 [] (dumpSys 4) _ rfl
      (by decide) (by decide) (by decide) (by decide),
   C5_dump_header_and_fragment_count (dumpSchema 5 4) 5 [] (dumpSys 5) _ rfl
      (by decide) (by decide) (by decide) (by decide),
   C5_dump_header_and_fragment_count (dumpSchema 12 4) 12 [] (dumpSys 12) _ rfl
      (by decide) (by decide) (by decide) (by decide)⟩

/-- The dump on the four bank lengths 1, M, M+1 and 3*M (M = 4), evaluated. -/
theorem dump_examples :
    (DumpParameters_Callback (dumpSchema 1 4) 1 (some Ref.global) [] (dumpSys 1)).map Sys.tx =
      some [Msg.DumpParametersHeader 1 1, Msg.DumpParametersData [1]] ∧
    (DumpParameters_Callback (dumpSchema 4 4) 4 (some Ref.global) [] (dumpSys 4)).map Sys.tx =
      some [Msg.DumpParametersHeader 4 1, Msg.DumpParametersData [1, 2, 3, 4]] ∧
    (DumpParameters_Callback (dumpSchema 5 4) 5 (some Ref.global) [] (dumpSys 5)).map Sys.tx =
      some [Msg.DumpParametersHeader 5 2, Msg.DumpParametersData [1, 2, 3, 4],
        Msg.DumpParametersData [5]] ∧
    (DumpParameters_Callback (dumpSchema 12 4) 12 (some Ref.global) [] (dumpSys 12)).map Sys.tx =
      some [Msg.DumpParametersHeader 12 3, Msg.DumpParametersData [1, 2, 3, 4],
        Msg.DumpParametersData [5, 6, 7, 8], Msg.DumpParametersData [9, 10, 11, 12]] := by
  decide

/-- C6: for a bank of `0 < L < 65536` bytes and a maximum fragment size `M > 0`, the
fragment loop of the dump finishes (given fuel for one iteration per byte); the fragments
it transmits after the header, concatenated in order, are the bytes of the canonical bank;
every fragment but the last has length `M`, the last has a length between 1 and `M`, and
the lengths sum to `L`. -/
theorem C6_dump_fragments_tile_bank (S : Schema) (fuel : Nat) (payload : List Nat)
    (s : Sys) (g : Obj) (hg : s.paramsGlobal = some g)
    (hbank : g.bank.length = S.PARAMETERS_LENGTH)
    (hL0 : 0 < S.PARAMETERS_LENGTH) (hL : S.PARAMETERS_LENGTH < 65536)
    (hM : 0 < S.LSPC_MAXIMUM_PACKAGE_LENGTH) (hfuel : S.PARAMETERS_LENGTH ≤ fuel) :
    ∃ (s' : Sys) (header : Msg) (init : List (List Nat)) (last : List Nat),
      DumpParameters_Callback S fuel (some Ref.global) payload s = some s' ∧
      s'.tx = s.tx ++ header :: (init ++ [last]).map Msg.DumpParametersData ∧
      (init ++ [last]).flatten = g.bank ∧
      (∀ f ∈ init, f.length = S.LSPC_MAXIMUM_PACKAGE_LENGTH) ∧
      1 ≤ last.length ∧ last.length ≤ S.LSPC_MAXIMUM_PACKAGE_LENGTH ∧
      ((init ++ [last]).map List.length).sum = S.PARAMETERS_LENGTH := by
  have hmod : S.PARAMETERS_LENGTH % 65536 = S.PARAMETERS_LENGTH := Nat.mod_eq_of_lt hL
  rw [DumpParameters_Callback_eq S fuel payload s g hg, hmod]
  obtain ⟨frags, hrun, _, hrest⟩ := dumpLoop_spec S g.bank hM S.PARAMETERS_LENGTH fuel 0
    (transmit (takeRead s) (Msg.DumpParametersHeader S.PARAMETERS_LENGTH
      ((S.PARAMETERS_LENGTH / S.LSPC_MAXIMUM_PACKAGE_LENGTH +
        (if S.PARAMETERS_LENGTH % S.LSPC_MAXIMUM_PACKAGE_LENGTH > 0 then 1 else 0)) % 65536)))
    hL hfuel
  have hin : 0 + S.PARAMETERS_LENGTH ≤ g.bank.length := by rw [hbank, Nat.zero_add]
  obtain ⟨hflat, hsum, hshape⟩ := hrest hin
  obtain ⟨init, last, hfr, hinit, hl1, hl2⟩ := hshape hL0
  subst hfr
  refine ⟨_, Msg.DumpParametersHeader S.PARAMETERS_LENGTH
      ((S.PARAMETERS_LENGTH / S.LSPC_MAXIMUM_PACKAGE_LENGTH +
        (if S.PARAMETERS_LENGTH % S.LSPC_MAXIMUM_PACKAGE_LENGTH > 0 then 1 else 0)) % 65536),
    init, last, by rw [hrun]; rfl, ?_, ?_, hinit, hl1, hl2, hsum⟩
  · simp [giveRead, transmit, takeRead]
  · rw [hflat]
    exact readBytes_bank g.bank _ (le_of_eq hbank)

/-- C6, an instance: the 52-byte bank of the demonstration state in 20-byte fragments. -/
theorem C6_dump_fragments_tile_bank_witness :
    ∃ (s' : Sys) (header : Msg) (init : List (List Nat)) (last : List Nat),
      DumpParameters_Callback demoSchema 52 (some Ref.global) [] demoSys = some s' ∧
      s'.tx = demoSys.tx ++ header :: (init ++ [last]).map Msg.DumpParametersData ∧
      (init ++ [last]).flatten = (demoSys.paramsGlobal.getD default).bank ∧
      (∀ f ∈ init, f.length = demoSchema.LSPC_MAXIMUM_PACKAGE_LENGTH) ∧
      1 ≤ last.length ∧ last.length ≤ demoSchema.LSPC_MAXIMUM_PACKAGE_LENGTH ∧
      ((init ++ [last]).map List.length).sum = demoSchema.PARAMETERS_LENGTH :=
  C6_dump_fragments_tile_bank demoSchema 52 [] demoSys (demoSys.paramsGlobal.getD default)
    (by decide) (by decide) (by decide) (by decide) (by decide) (by decide)

/-! ## The version counter -/

/-- A `LockForChange` / `UnlockAfterChange` pair on an object of the application, with any
edit in between, leaves the counter of the canonical object as it was: `changeCounter_++`
in `LockForChange` counts on the calling object. -/
theorem lock_unlock_canonical_counter (S : Schema) (s : Sys) (i : Nat)
    (edit : List Nat → List Nat) :
    (UnlockAfterChange S (Ref.cache i)
        (editBank (Ref.cache i) edit (LockForChange S (Ref.cache i) s))).paramsGlobal.map
        Obj.changeCounter_ =
      s.paramsGlobal.map Obj.changeCounter_ := by
  cases hg : s.paramsGlobal with
  | none => simp [LockForChange, UnlockAfterChange, editBank, Sys.setBank, Sys.setObj, hg]
  | some g =>
    simp [LockForChange, UnlockAfterChange, editBank, Sys.setBank, Sys.setCounter,
      Sys.setObj, Sys.obj, takeWrite, takeRead, giveRead, giveWrite, hg]

/-- C3, the code at the failing input: object 1 of the demonstration state locks, sets
`controller.mode` to 2 and unlocks. The edit reaches the canonical bank, but the canonical
version counter is 0 before and 0 after, while the counter of object 1 went from 0 to 1. -/
theorem C3_canonical_counter_not_raised :
    demoSys.paramsGlobal.map Obj.changeCounter_ = some 0 ∧
    (demoSys.objects 1).changeCounter_ = 0 ∧
    (UnlockAfterChange demoSchema (Ref.cache 1)
        (editBank (Ref.cache 1) (fun bank => memcpyAt bank 17 [2])
          (LockForChange demoSchema (Ref.cache 1) demoSys))).paramsGlobal.map
        Obj.changeCounter_ = some 0 ∧
    ((UnlockAfterChange demoSchema (Ref.cache 1)
        (editBank (Ref.cache 1) (fun bank => memcpyAt bank 17 [2])
          (LockForChange demoSchema (Ref.cache 1) demoSys))).objects 1).changeCounter_ = 1 ∧
    (UnlockAfterChange demoSchema (Ref.cache 1)
        (editBank (Ref.cache 1) (fun bank => memcpyAt bank 17 [2])
          (LockForChange demoSchema (Ref.cache 1) demoSys))).paramsGlobal.map
        (fun o => o.bank.getD 17 0) = some 2 := by
  decide

/-- C4, the code at the failing input: from startup, objects 0 and 1 are constructed;
object 0 locks, sets `controller.mode` to 2 and unlocks; then object 1 refreshes with the
read permit available (the log ends with its take and give). Afterwards the canonical bank
holds 2 at the offset of `mode` and the bank of object 1 still holds 0 there. -/
theorem C4_refresh_misses_committed_edit :
    (UnlockAfterChange demoSchema (Ref.cache 0)
        (editBank (Ref.cache 0) (fun bank => memcpyAt bank 17 [2])
          (LockForChange demoSchema (Ref.cache 0) demoSys))).readSemaphore_ = true ∧
    (Refresh demoSchema (Ref.cache 1)
        (UnlockAfterChange demoSchema (Ref.cache 0)
          (editBank (Ref.cache 0) (fun bank => memcpyAt bank 17 [2])
            (LockForChange demoSchema (Ref.cache 0) demoSys)))).semLog.drop 10 =
      [SemEvent.takeRead, SemEvent.giveRead] ∧
    (Refresh demoSchema (Ref.cache 1)
        (UnlockAfterChange demoSchema (Ref.cache 0)
          (editBank (Ref.cache 0) (fun bank => memcpyAt bank 17 [2])
            (LockForChange demoSchema (Ref.cache 0) demoSys)))).paramsGlobal.map
        (fun o => o.bank.getD 17 0) = some 2 ∧
    ((Refresh demoSchema (Ref.cache 1)
        (UnlockAfterChange demoSchema (Ref.cache 0)
          (editBank (Ref.cache 0) (fun bank => memcpyAt bank 17 [2])
            (LockForChange demoSchema (Ref.cache 0) demoSys)))).objects 1).bank.getD 17 0 = 0 := by
  decide

/-! ## Attaching the EEPROM -/

theorem getParametersSize_loaded (S : Schema) (bank image : List Nat)
    (himg : image.length = S.PARAMETERS_LENGTH)
    (hsz : S.sizeOffset + 2 ≤ S.PARAMETERS_LENGTH) :
    getParametersSize S (memcpyAt bank 0 (image.take S.PARAMETERS_LENGTH)) =
      getParametersSize S image := by
  have htake : image.take S.PARAMETERS_LENGTH = image := List.take_of_length_le (le_of_eq himg)
  rw [htake]
  simp only [getParametersSize, readLe16, memcpyAt, List.take_zero, List.nil_append]
  rw [List.getD_append _ _ _ _ (by omega), List.getD_append _ _ _ _ (by omega)]

/-- The state `AttachEEPROM` returns when the canonical flag is clear and the length field
of the persisted image equals `PARAMETERS_LENGTH`: the image is read into the calling
object and then into the canonical object; nothing is written. -/
theorem AttachEEPROM_match (S : Schema) (s : Sys) (g : Obj) (i : Nat)
    (hg : s.paramsGlobal = some g) (hflag : ForceDefaultParameters g.bank = false)
    (himg : s.eeprom.image.length = S.PARAMETERS_LENGTH)
    (hsz : S.sizeOffset + 2 ≤ S.PARAMETERS_LENGTH)
    (hsize : getParametersSize S s.eeprom.image = S.PARAMETERS_LENGTH) :
    AttachEEPROM S (Ref.cache i) true s =
      { s with
        paramsGlobal := some
          { g with
            eeprom_ := true
            bank := memcpyAt g.bank 0 (s.eeprom.image.take S.PARAMETERS_LENGTH) }
        objects := Function.update s.objects i
          { s.objects i with
            bank := memcpyAt (s.objects i).bank 0 (s.eeprom.image.take S.PARAMETERS_LENGTH) }
        readSemaphore_ := true
        writeSemaphore_ := true
        semLog := s.semLog ++ [SemEvent.takeWrite, SemEvent.takeRead, SemEvent.giveWrite,
          SemEvent.giveRead, SemEvent.giveWrite, SemEvent.takeWrite, SemEvent.takeRead,
          SemEvent.giveWrite, SemEvent.giveRead, SemEvent.giveWrite]
        eeprom := { s.eeprom with reads := s.eeprom.reads + 1 + 1 } } := by
  have h := getParametersSize_loaded S (s.objects i).bank s.eeprom.image himg hsz
  simp [AttachEEPROM, LoadParametersFromEEPROM, hg, hflag, Sys.obj,
    Sys.setObj, Sys.setBank, takeWrite, takeRead, giveRead, giveWrite, EEPROM.ReadData, h, hsize]

theorem getElem?_memcpyAt (mem : List Nat) (off b : Nat) (rest : List Nat)
    (h : off ≤ mem.length) : (memcpyAt mem off (b :: rest))[off]? = some b := by
  have h1 : (mem.take off).length = off := by simp [h]
  simp only [memcpyAt, List.append_assoc]
  rw [List.getElem?_append_right (by omega)]
  simp [h1]

/-- C8: when `AttachEEPROM` is run with the force-defaults flag clear and a persisted image
whose stored length field equals the compiled bank length, the canonical bank afterwards is
the persisted image, byte for byte, and nothing is handed to the backend's `WriteData` (the
image stays as it was). -/
theorem C8_attach_loads_image (S : Schema) (s : Sys) (g : Obj) (i : Nat)
    (hg : s.paramsGlobal = some g) (hglen : g.bank.length = S.PARAMETERS_LENGTH)
    (himg : s.eeprom.image.length = S.PARAMETERS_LENGTH)
    (hsz : S.sizeOffset + 2 ≤ S.PARAMETERS_LENGTH)
    (hflag : ForceDefaultParameters g.bank = false)
    (hsize : getParametersSize S s.eeprom.image = S.PARAMETERS_LENGTH) :
    (AttachEEPROM S (Ref.cache i) true s).paramsGlobal.map Obj.bank = some s.eeprom.image ∧
    (AttachEEPROM S (Ref.cache i) true s).eeprom.written = s.eeprom.written ∧
    (AttachEEPROM S (Ref.cache i) true s).eeprom.image = s.eeprom.image := by
  rw [AttachEEPROM_match S s g i hg hflag himg hsz hsize]
  have htake : s.eeprom.image.take S.PARAMETERS_LENGTH = s.eeprom.image :=
    List.take_of_length_le (le_of_eq himg)
  have hcopy : memcpyAt g.bank 0 s.eeprom.image = s.eeprom.image :=
    memcpyAt_bank _ _ (by omega)
  simp [htake, hcopy]

/-- C8, an instance: the image `demoImage` (length field 52, `controller.mode` 2) on the
layout whose defaults have the flag clear. -/
theorem C8_attach_loads_image_witness :
    (AttachEEPROM quietSchema (Ref.cache 0) true
        (createdSys quietSchema 0 (demoEEPROM demoImage))).paramsGlobal.map Obj.bank =
      some (createdSys quietSchema 0 (demoEEPROM demoImage)).eeprom.image ∧
    (AttachEEPROM quietSchema (Ref.cache 0) true
        (createdSys quietSchema 0 (demoEEPROM demoImage))).eeprom.written =
      (createdSys quietSchema 0 (demoEEPROM demoImage)).eeprom.written ∧
    (AttachEEPROM quietSchema (Ref.cache 0) true
        (createdSys quietSchema 0 (demoEEPROM demoImage))).eeprom.image =
      (createdSys quietSchema 0 (demoEEPROM demoImage)).eeprom.image :=
  C8_attach_loads_image quietSchema (createdSys quietSchema 0 (demoEEPROM demoImage))
    ⟨freshBank quietSchema, 0, false, false⟩ 0 rfl (by decide) (by decide) (by decide)
    (by decide) (by decide)

/-- `Refresh` on an object of the application leaves the canonical object as it is. -/
theorem Refresh_cache_paramsGlobal (S : Schema) (i : Nat) (s : Sys) :
    (Refresh S (Ref.cache i) s).paramsGlobal = s.paramsGlobal := by
  cases hg : s.paramsGlobal with
  | none => simp [Refresh, hg]
  | some g =>
    simp only [Refresh, hg, Sys.setBank, Sys.setObj, Sys.obj, Sys.setCounter, takeRead,
      giveRead]
    split <;> (try split) <;> simp [hg]

/-- `Refresh` does not touch the EEPROM. -/
theorem Refresh_eeprom (S : Schema) (this : Ref) (s : Sys) :
    (Refresh S this s).eeprom = s.eeprom := by
  cases hg : s.paramsGlobal with
  | none => simp [Refresh, hg]
  | some g =>
    cases this <;>
      (simp only [Refresh, hg, Sys.setBank, Sys.setObj, Sys.obj, Sys.setCounter, takeRead,
        giveRead]
       split <;> (try split) <;> simp)

theorem LoadParametersFromEEPROM_isSome (S : Schema) (this : Ref) (eeprom : Bool) (s : Sys)
    (h : s.paramsGlobal.isSome = true) :
    (LoadParametersFromEEPROM S this eeprom s).paramsGlobal.isSome = true := by
  cases eeprom <;> cases this <;>
    simp [LoadParametersFromEEPROM, Sys.setBank, Sys.setObj, Sys.obj, takeWrite, takeRead,
      giveRead, giveWrite, h]

theorem StoreParameters_paramsGlobal (S : Schema) (this : Ref) (s : Sys) :
    (StoreParameters S this s).paramsGlobal = s.paramsGlobal := by
  unfold StoreParameters
  split <;> simp [takeWrite, giveWrite]

theorem AttachEEPROM_isSome (S : Schema) (this : Ref) (eeprom : Bool) (s : Sys)
    (h : s.paramsGlobal.isSome = true) :
    (AttachEEPROM S this eeprom s).paramsGlobal.isSome = true := by
  unfold AttachEEPROM
  cases eeprom
  · simpa using h
  · cases hg : s.paramsGlobal with
    | none => simp [hg] at h
    | some g =>
      simp only [Bool.not_true, Bool.false_eq_true, if_false]
      split
      · rw [StoreParameters_paramsGlobal]
        simp [Sys.setObj]
      · split
        · apply LoadParametersFromEEPROM_isSome
          apply LoadParametersFromEEPROM_isSome
          simp [Sys.setObj]
        · rw [StoreParameters_paramsGlobal]
          apply LoadParametersFromEEPROM_isSome
          simp [Sys.setObj]

/-- The constructor of the first object with an EEPROM, from startup: it runs
`AttachEEPROM` on the state `createdSys`, whose canonical bank is `freshBank`. -/
theorem Parameters_ctor_startup (S : Schema) (i : Nat) (com : Bool) (e : EEPROM) :
    (Parameters_ctor S i true com (startup e)).paramsGlobal.map Obj.bank =
      (AttachEEPROM S (Ref.cache i) true (createdSys S i e)).paramsGlobal.map Obj.bank ∧
    (Parameters_ctor S i true com (startup e)).eeprom =
      (AttachEEPROM S (Ref.cache i) true (createdSys S i e)).eeprom := by
  have hstart : Parameters_ctor S i true com (startup e) =
      (fun s1 : Sys =>
        (fun s2 : Sys =>
          (fun s3 : Sys =>
            match s3.paramsGlobal with
            | some _ => Refresh S (Ref.cache i) s3
            | none => s3)
          (s2.setBank (Ref.cache i)
            (setParametersSize S (s2.obj (Ref.cache i)).bank S.PARAMETERS_LENGTH)))
        (if com then s1.setObj Ref.global { s1.obj Ref.global with com_ := true } else s1))
      (AttachEEPROM S (Ref.cache i) true (createdSys S i e)) := rfl
  have hsome := AttachEEPROM_isSome S (Ref.cache i) true (createdSys S i e) rfl
  rw [hstart]
  generalize AttachEEPROM S (Ref.cache i) true (createdSys S i e) = a at hsome
  cases hg : a.paramsGlobal with
  | none => simp [hg] at hsome
  | some g =>
    cases com <;>
      simp [Sys.setBank, Sys.setObj, Sys.obj, hg, Refresh_cache_paramsGlobal, Refresh_eeprom]

/-- The constructor of the first object, evaluated from startup on the three kinds of
EEPROM content: forced defaults, a rejected image, an accepted image. -/
theorem ctor_examples :
    (Parameters_ctor demoSchema 0 true true
        (startup (demoEEPROM (List.replicate 52 255)))).paramsGlobal.map Obj.bank =
      some (freshBank demoSchema) ∧
    (Parameters_ctor demoSchema 0 true true
        (startup (demoEEPROM (List.replicate 52 255)))).eeprom.written =
      [freshBank demoSchema] ∧
    (Parameters_ctor quietSchema 0 true true
        (startup (demoEEPROM (List.replicate 52 255)))).paramsGlobal.map Obj.bank =
      some (freshBank quietSchema) ∧
    (Parameters_ctor quietSchema 0 true true
        (startup (demoEEPROM (List.replicate 52 255)))).eeprom.written =
      [freshBank quietSchema] ∧
    (Parameters_ctor quietSchema 0 true true
        (startup (demoEEPROM demoImage))).paramsGlobal.map Obj.bank = some demoImage ∧
    (Parameters_ctor quietSchema 0 true true
        (startup (demoEEPROM demoImage))).eeprom.written = [] := by
  decide

/-! ## StoreParameters -/

/-- C9: the StoreParameters handler replies with `acknowledged = true` if and only if an
EEPROM is attached and its `WriteData` reports completion; with an EEPROM attached the
bytes handed to `WriteData` are the whole canonical bank; with none attached nothing is
written and the reply is `acknowledged = false`. Hence after an acknowledged Set of
`controller.mode` to 2 and an acknowledged Store the EEPROM image holds 2 at the offset of
`mode`. -/
theorem C9_store_ack_iff_written (S : Schema) (s : Sys) (g : Obj) (payload : List Nat)
    (hg : s.paramsGlobal = some g) (hbank : g.bank.length = S.PARAMETERS_LENGTH) :
    (∃ a, (StoreParameters_Callback S (some Ref.global) payload s).tx =
        s.tx ++ [Msg.StoreParametersAck a] ∧
      (a = true ↔ g.eeprom_ = true ∧ s.eeprom.writeCompletes = true)) ∧
    (g.eeprom_ = true →
      (StoreParameters_Callback S (some Ref.global) payload s).eeprom.written =
        s.eeprom.written ++ [g.bank]) ∧
    (g.eeprom_ = false →
      (StoreParameters_Callback S (some Ref.global) payload s).eeprom = s.eeprom ∧
      (StoreParameters_Callback S (some Ref.global) payload s).tx =
        s.tx ++ [Msg.StoreParametersAck false]) ∧
    (∀ type param : Nat, S.FieldsInBank →
      LookupParameter S type param = (ValueType._uint8, some Param.mode, 1) →
      (SetParameter_Callback S (some Ref.global)
          [type, param, S.valueTypeCode ValueType._uint8, 1, 2] s).tx =
        s.tx ++ [Msg.SetParameterAck type param true] ∧
      ((StoreParameters_Callback S (some Ref.global) payload
          (SetParameter_Callback S (some Ref.global)
            [type, param, S.valueTypeCode ValueType._uint8, 1, 2] s)).tx =
          (SetParameter_Callback S (some Ref.global)
            [type, param, S.valueTypeCode ValueType._uint8, 1, 2] s).tx ++
            [Msg.StoreParametersAck true] →
        (StoreParameters_Callback S (some Ref.global) payload
          (SetParameter_Callback S (some Ref.global)
            [type, param, S.valueTypeCode ValueType._uint8, 1, 2] s)).eeprom.image[
              S.offset Param.mode]? = some 2)) := by
  have hread : readBytes g.bank 0 S.PARAMETERS_LENGTH = g.bank :=
    readBytes_bank _ _ (le_of_eq hbank)
  refine ⟨?_, ?_, ?_, ?_⟩
  · rw [StoreParameters_Callback_eq S s g payload hg]
    exact ⟨_, rfl, by simp⟩
  · intro hE
    rw [StoreParameters_Callback_eq S s g payload hg]
    simp [hE, EEPROM.WriteData, hread]
  · intro hE
    rw [StoreParameters_Callback_eq S s g payload hg]
    simp [hE]
  · intro type param hS hlook
    have hin := hS Param.mode (by simp [allParams])
    have hw : copyLength (registryType Param.mode) = 1 := rfl
    rw [hw] at hin
    have hset := SetParameter_Callback_registered S s g
      [type, param, S.valueTypeCode ValueType._uint8, 1, 2] Param.mode hg
      (by simp [sizeofSetParameter]) (by simpa using hlook)
    rw [if_pos (by simp [registryType, copyLength, sizeofSetParameter])] at hset
    rw [hset]
    refine ⟨rfl, ?_⟩
    rw [StoreParameters_Callback_eq S _ _ payload rfl]
    intro hack
    have hboth : g.eeprom_ = true ∧ s.eeprom.writeCompletes = true := by
      simpa using hack
    have hlen2 : (memcpyAt g.bank (S.offset Param.mode) [2]).length ≤ S.PARAMETERS_LENGTH := by
      rw [length_memcpyAt g.bank [2] (S.offset Param.mode) (by simp; omega)]
      omega
    simp only [hboth.1, hboth.2, if_true, EEPROM.WriteData, hw, sizeofSetParameter,
      List.drop_succ_cons, List.drop_zero, List.take_succ_cons, List.take_zero]
    rw [readBytes_bank _ _ hlen2]
    exact getElem?_memcpyAt g.bank (S.offset Param.mode) 2 [] (by omega)

/-- C9, an instance: the demonstration state, whose EEPROM is attached and completes its
writes. -/
theorem C9_store_ack_iff_written_witness :
    (StoreParameters_Callback demoSchema (some Ref.global) []
        (SetParameter_Callback demoSchema (some Ref.global) [2, 1, 2, 1, 2] demoSys)).tx =
      [Msg.SetParameterAck 2 1 true, Msg.StoreParametersAck true] ∧
    (StoreParameters_Callback demoSchema (some Ref.global) []
        (SetParameter_Callback demoSchema (some Ref.global) [2, 1, 2, 1, 2]
          demoSys)).eeprom.image[demoSchema.offset Param.mode]? = some 2 ∧
    ∃ a, (StoreParameters_Callback demoSchema (some Ref.global) [] demoSys).tx =
        demoSys.tx ++ [Msg.StoreParametersAck a] ∧
      (a = true ↔ (demoSys.paramsGlobal.getD default).eeprom_ = true ∧
        demoSys.eeprom.writeCompletes = true) :=
  ⟨by decide, by decide,
    (C9_store_ack_iff_written demoSchema demoSys (demoSys.paramsGlobal.getD default) []
      (by decide) (by decide)).1⟩

/-! ## Parameters the registry does not know -/

theorem mem_allParams (p : Param) : p ∈ allParams := by
  cases p <;> simp [allParams]

theorem LookupOrigin_ite (S : Schema) (type param : Nat) (c : Prop) [Decidable c]
    (a b : ValueType × Option Param × Nat)
    (ha : c → LookupOrigin S type param a) (hb : ¬ c → LookupOrigin S type param b) :
    LookupOrigin S type param (if c then a else b) := by
  by_cases h : c
  · simpa [h] using ha h
  · simpa [h] using hb h

theorem LookupParameter_origin (S : Schema) (type param : Nat) :
    LookupOrigin S type param (LookupParameter S type param) := by
  unfold LookupParameter
  repeat' (apply LookupOrigin_ite <;> intro _)
  all_goals
    constructor
    · intro p hp
      first
      | (simp at hp
         subst hp
         exact ⟨by assumption, by assumption⟩)
      | simp at hp
    · intro hp
      first
      | rfl
      | simp at hp

/-- A pair (group, id) outside the registry table gets the unknown type and a null pointer. -/
theorem LookupParameter_not_in_registry (S : Schema) (type param : Nat)
    (h : ¬ InRegistry S type param) :
    LookupParameter S type param = (ValueType._unknown, none, 1) := by
  obtain ⟨h1, h2⟩ := LookupParameter_origin S type param
  cases hp : (LookupParameter S type param).2.1 with
  | none => exact h2 hp
  | some p =>
    obtain ⟨ht, hq⟩ := h1 p hp
    exact absurd ⟨p, mem_allParams p, ht, hq⟩ h

/-- The Set handler returns at once on a payload no longer than the request header. -/
theorem SetParameter_Callback_short (S : Schema) (s : Sys) (payload : List Nat)
    (hlen : payload.length ≤ sizeofSetParameter) :
    SetParameter_Callback S (some Ref.global) payload s = s := by
  cases hg : s.paramsGlobal <;> simp [SetParameter_Callback, hg, hlen]

/-- The Get handler never changes anything but the read semaphore and its log when the
registry does not know the parameter, whatever the payload. -/
theorem GetParameter_Callback_unknown_tx (S : Schema) (s : Sys) (payload : List Nat)
    (msgBuf : Bool)
    (hlook : LookupParameter S (payload.getD 0 0) (payload.getD 1 0) =
      (ValueType._unknown, none, 1)) :
    (GetParameter_Callback S (some Ref.global) payload msgBuf s).tx = s.tx := by
  unfold GetParameter_Callback
  cases hg : s.paramsGlobal with
  | none => simp
  | some g =>
    simp only [List.getD_eq_getElem?_getD] at hlook
    by_cases hlen : payload.length = sizeofGetParameter
    · simp [hlen, hlook, takeRead, giveRead]
    · simp [hlen]

/-- C11 (amended): for every (group, id) that is not in the compiled registry table,
`LookupParameter` yields the unknown type with a null member pointer; a SetParameter for it
that carries a non-empty value leaves every byte of the canonical bank unchanged and replies
`acknowledged = false`, one with an empty value changes nothing and gets no reply; and a
GetParameter for it transmits no reply. -/
theorem C11_unknown_parameter (S : Schema) (s : Sys) (g : Obj) (type param : Nat)
    (hg : s.paramsGlobal = some g) (hnot : ¬ InRegistry S type param) :
    LookupParameter S type param = (ValueType._unknown, none, 1) ∧
    (∀ rest : List Nat, 3 ≤ rest.length →
      (SetParameter_Callback S (some Ref.global) (type :: param :: rest) s).paramsGlobal.map
          Obj.bank = some g.bank ∧
      (SetParameter_Callback S (some Ref.global) (type :: param :: rest) s).tx =
        s.tx ++ [Msg.SetParameterAck type param false]) ∧
    (∀ rest : List Nat, rest.length ≤ 2 →
      SetParameter_Callback S (some Ref.global) (type :: param :: rest) s = s) ∧
    (∀ (rest : List Nat) (msgBuf : Bool),
      (GetParameter_Callback S (some Ref.global) (type :: param :: rest) msgBuf s).tx = s.tx) := by
  have hlook := LookupParameter_not_in_registry S type param hnot
  refine ⟨hlook, ?_, ?_, ?_⟩
  · intro rest hrest
    rw [SetParameter_Callback_unknown S s g (type :: param :: rest) hg
      (by simp [sizeofSetParameter]; omega) (by simpa using hlook)]
    exact ⟨rfl, by simp⟩
  · intro rest hrest
    exact SetParameter_Callback_short S s (type :: param :: rest)
      (by simp [sizeofSetParameter]; omega)
  · intro rest msgBuf
    exact GetParameter_Callback_unknown_tx S s (type :: param :: rest) msgBuf
      (by simpa using hlook)

/-- C11, the claim as stated fails: group 9 is not in the registry table of the
demonstration layout, and a SetParameter for (9, 0) that consists of the header alone gets
no reply at all, not `acknowledged = false`. -/
theorem C11_unknown_header_only_gets_no_ack :
    ¬ InRegistry demoSchema 9 0 ∧
    (SetParameter_Callback demoSchema (some Ref.global) [9, 0, 0, 1] demoSys).tx = [] := by
  decide

/-- C11, an instance: group 9 on the demonstration state. -/
theorem C11_unknown_parameter_witness :
    LookupParameter demoSchema 9 0 = (ValueType._unknown, none, 1) ∧
    (∀ rest : List Nat, 3 ≤ rest.length →
      (SetParameter_Callback demoSchema (some Ref.global) (9 :: 0 :: rest)
          demoSys).paramsGlobal.map Obj.bank = some (demoSys.paramsGlobal.getD default).bank ∧
      (SetParameter_Callback demoSchema (some Ref.global) (9 :: 0 :: rest) demoSys).tx =
        demoSys.tx ++ [Msg.SetParameterAck 9 0 false]) ∧
    (∀ rest : List Nat, rest.length ≤ 2 →
      SetParameter_Callback demoSchema (some Ref.global) (9 :: 0 :: rest) demoSys = demoSys) ∧
    (∀ (rest : List Nat) (msgBuf : Bool),
      (GetParameter_Callback demoSchema (some Ref.global) (9 :: 0 :: rest) msgBuf demoSys).tx =
        demoSys.tx) :=
  C11_unknown_parameter demoSchema demoSys (demoSys.paramsGlobal.getD default) 9 0
    (by decide) (by decide)

/-! ## Refresh -/

theorem getElem?_memcpyAt_of_lt (mem src : List Nat) (off k : Nat) (hoff : off ≤ mem.length)
    (hk : k < off) : (memcpyAt mem off src)[k]? = mem[k]? := by
  have h1 : (mem.take off).length = off := by simp [hoff]
  simp only [memcpyAt, List.append_assoc]
  rw [List.getElem?_append_left (by omega), List.getElem?_take_of_lt hk]

theorem getElem?_memcpyAt_of_ge (mem src : List Nat) (off k : Nat)
    (hin : off + src.length ≤ mem.length) (hk : off + src.length ≤ k) :
    (memcpyAt mem off src)[k]? = mem[k]? := by
  have h1 : (mem.take off).length = off := by
    simp
    omega
  simp only [memcpyAt, List.append_assoc]
  rw [List.getElem?_append_right (by omega), List.getElem?_append_right (by omega),
    List.getElem?_drop, h1]
  congr 1
  omega

theorem memcpyAt_memcpyAt (mem x y : List Nat) (off : Nat) (hoff : off ≤ mem.length)
    (hxy : x.length = y.length) :
    memcpyAt (memcpyAt mem off x) off y = memcpyAt mem off y := by
  have h1 : (mem.take off).length = off := by simp [hoff]
  have h2 : (mem.take off ++ x).length = off + y.length := by
    rw [List.length_append, h1, hxy]
  unfold memcpyAt
  rw [List.append_assoc (mem.take off) x, List.take_left' h1,
    ← List.append_assoc (mem.take off) x, List.drop_left' h2, hxy]

theorem length_setParametersSize (S : Schema) (bank : List Nat) (n : Nat)
    (h : S.sizeOffset + 2 ≤ bank.length) :
    (setParametersSize S bank n).length = bank.length :=
  length_memcpyAt bank (le16 n) S.sizeOffset (by simpa [le16] using h)

theorem setParametersSize_idem (S : Schema) (bank : List Nat) (n : Nat)
    (h : S.sizeOffset ≤ bank.length) :
    setParametersSize S (setParametersSize S bank n) n = setParametersSize S bank n :=
  memcpyAt_memcpyAt bank (le16 n) (le16 n) S.sizeOffset h rfl

/-- The state `Refresh` returns on an object of the application when the read semaphore is
available. -/
theorem Refresh_cache_available (S : Schema) (s : Sys) (g : Obj) (i : Nat)
    (hg : s.paramsGlobal = some g) (hperm : s.readSemaphore_ = true) :
    Refresh S (Ref.cache i) s =
      { s with
        objects := Function.update s.objects i
          (if (s.objects i).changeCounter_ ≠ g.changeCounter_ then
            { s.objects i with
              bank := memcpyAt (setParametersSize S (s.objects i).bank S.PARAMETERS_LENGTH) 0
                (readBytes g.bank 0 S.PARAMETERS_LENGTH)
              changeCounter_ := g.changeCounter_ }
          else
            { s.objects i with
              bank := setParametersSize S (s.objects i).bank S.PARAMETERS_LENGTH })
        readSemaphore_ := true
        semLog := s.semLog ++ [SemEvent.takeRead, SemEvent.giveRead] } := by
  by_cases hc : (s.objects i).changeCounter_ = g.changeCounter_
  · simp [Refresh, hg, hperm, hc, Sys.setBank, Sys.setObj, Sys.obj, Sys.setCounter, takeRead,
      giveRead]
  · simp [Refresh, hg, hperm, hc, Sys.setBank, Sys.setObj, Sys.obj, Sys.setCounter, takeRead,
      giveRead]

/-- The state `Refresh` returns on an object of the application when the read semaphore is
taken: only `ParametersSize` of the object has been assigned. -/
theorem Refresh_cache_busy (S : Schema) (s : Sys) (g : Obj) (i : Nat)
    (hg : s.paramsGlobal = some g) (hperm : s.readSemaphore_ = false) :
    Refresh S (Ref.cache i) s =
      { s with
        objects := Function.update s.objects i
          { s.objects i with
            bank := setParametersSize S (s.objects i).bank S.PARAMETERS_LENGTH } } := by
  simp [Refresh, hg, hperm, Sys.setBank, Sys.setObj, Sys.obj]

/-- C12 (amended): with the read permit available, `Refresh` on a cache whose version
differs from the canonical one makes the cache's bank the whole canonical bank and its
version the canonical version; on a cache whose version equals the canonical one it copies
nothing from the canonical bank and leaves the version unchanged and the bank unchanged
except for the stored-length field, which it sets to the compiled bank length. In both cases
the canonical object is unchanged and the read permit is available afterwards; and when the
canonical bank's stored-length field holds the compiled length, a second `Refresh` leaves
the cache as the first one left it. -/
theorem C12_refresh_with_permit (S : Schema) (s : Sys) (g : Obj) (i : Nat)
    (hg : s.paramsGlobal = some g) (hperm : s.readSemaphore_ = true)
    (hgl : g.bank.length = S.PARAMETERS_LENGTH)
    (hcl : (s.objects i).bank.length = S.PARAMETERS_LENGTH)
    (hsz : S.sizeOffset + 2 ≤ S.PARAMETERS_LENGTH) :
    ((s.objects i).changeCounter_ ≠ g.changeCounter_ →
      ((Refresh S (Ref.cache i) s).objects i).bank = g.bank ∧
      ((Refresh S (Ref.cache i) s).objects i).changeCounter_ = g.changeCounter_) ∧
    ((s.objects i).changeCounter_ = g.changeCounter_ →
      ((Refresh S (Ref.cache i) s).objects i).bank =
        setParametersSize S (s.objects i).bank S.PARAMETERS_LENGTH ∧
      (∀ k, k < S.sizeOffset ∨ S.sizeOffset + 2 ≤ k →
        ((Refresh S (Ref.cache i) s).objects i).bank[k]? = (s.objects i).bank[k]?) ∧
      ((Refresh S (Ref.cache i) s).objects i).changeCounter_ = (s.objects i).changeCounter_) ∧
    (Refresh S (Ref.cache i) s).paramsGlobal = s.paramsGlobal ∧
    (Refresh S (Ref.cache i) s).readSemaphore_ = true ∧
    (setParametersSize S g.bank S.PARAMETERS_LENGTH = g.bank →
      (Refresh S (Ref.cache i) (Refresh S (Ref.cache i) s)).objects i =
        (Refresh S (Ref.cache i) s).objects i) := by
  have hlen1 : (setParametersSize S (s.objects i).bank S.PARAMETERS_LENGTH).length =
      S.PARAMETERS_LENGTH := by
    rw [length_setParametersSize S _ _ (by omega), hcl]
  have hread : readBytes g.bank 0 S.PARAMETERS_LENGTH = g.bank :=
    readBytes_bank _ _ (le_of_eq hgl)
  have hcopy : memcpyAt (setParametersSize S (s.objects i).bank S.PARAMETERS_LENGTH) 0
      (readBytes g.bank 0 S.PARAMETERS_LENGTH) = g.bank := by
    rw [hread]
    exact memcpyAt_bank _ _ (by omega)
  have hR := Refresh_cache_available S s g i hg hperm
  refine ⟨?_, ?_, ?_, ?_, ?_⟩
  · intro hc
    rw [hR]
    simp [hc, hcopy]
  · intro hc
    rw [hR]
    simp only [hc, ne_eq, not_true_eq_false, if_false, Function.update_same]
    refine ⟨trivial, ?_, trivial⟩
    intro k hk
    rcases hk with hk | hk
    · exact getElem?_memcpyAt_of_lt _ _ _ _ (by omega) hk
    · exact getElem?_memcpyAt_of_ge _ _ _ _ (by simp [le16]; omega) (by simpa [le16] using hk)
  · rw [hR]
  · rw [hR]
  · intro hG
    rw [Refresh_cache_available S (Refresh S (Ref.cache i) s) g i (by rw [hR]; exact hg)
      (by rw [hR])]
    rw [hR]
    by_cases hc : (s.objects i).changeCounter_ = g.changeCounter_
    · simp [hc, setParametersSize_idem S (s.objects i).bank S.PARAMETERS_LENGTH (by omega)]
    · simp [hc, hcopy, hG]

/-- C12, the claim as stated fails: object 1 of the demonstration state, whose version
equals the canonical one, has 7 in its member `ParametersSize`; a `Refresh` with the read
permit available rewrites the member to 52, so the bank of the cache does not stay as it
was. -/
theorem C12_refresh_rewrites_length_field :
    (editBank (Ref.cache 1) (fun bank => memcpyAt bank 2 [7, 0]) demoSys).readSemaphore_ = true ∧
    ((editBank (Ref.cache 1) (fun bank => memcpyAt bank 2 [7, 0]) demoSys).objects
        1).changeCounter_ =
      ((editBank (Ref.cache 1) (fun bank => memcpyAt bank 2 [7, 0]) demoSys).paramsGlobal.getD
        default).changeCounter_ ∧
    ((editBank (Ref.cache 1) (fun bank => memcpyAt bank 2 [7, 0]) demoSys).objects
        1).bank.getD 2 0 = 7 ∧
    ((Refresh demoSchema (Ref.cache 1)
        (editBank (Ref.cache 1) (fun bank => memcpyAt bank 2 [7, 0]) demoSys)).objects
        1).bank.getD 2 0 = 52 := by
  decide

/-- C12, an instance: object 1 of the demonstration state. -/
theorem C12_refresh_with_permit_witness :
    (Refresh demoSchema (Ref.cache 1) demoSys).paramsGlobal = demoSys.paramsGlobal ∧
    (Refresh demoSchema (Ref.cache 1) demoSys).readSemaphore_ = true :=
  ⟨(C12_refresh_with_permit demoSchema demoSys (demoSys.paramsGlobal.getD default) 1
      (by decide) (by decide) (by decide) (by decide) (by decide)).2.2.1,
   (C12_refresh_with_permit demoSchema demoSys (demoSys.paramsGlobal.getD default) 1
      (by decide) (by decide) (by decide) (by decide) (by decide)).2.2.2.1⟩

/-- C13 (amended): with the read permit held by someone else, `Refresh` returns without
any call on the semaphores having succeeded or been waited for, and leaves the cache's
version and every byte of the cache's bank outside the stored-length field unchanged; the
stored-length field itself is set to the compiled bank length. -/
theorem C13_refresh_without_permit (S : Schema) (s : Sys) (g : Obj) (i : Nat)
    (hg : s.paramsGlobal = some g) (hperm : s.readSemaphore_ = false)
    (hsz : S.sizeOffset + 2 ≤ (s.objects i).bank.length) :
    ((Refresh S (Ref.cache i) s).objects i).changeCounter_ = (s.objects i).changeCounter_ ∧
    ((Refresh S (Ref.cache i) s).objects i).bank =
      setParametersSize S (s.objects i).bank S.PARAMETERS_LENGTH ∧
    (∀ k, k < S.sizeOffset ∨ S.sizeOffset + 2 ≤ k →
      ((Refresh S (Ref.cache i) s).objects i).bank[k]? = (s.objects i).bank[k]?) ∧
    (Refresh S (Ref.cache i) s).semLog = s.semLog ∧
    (Refresh S (Ref.cache i) s).readSemaphore_ = false ∧
    (Refresh S (Ref.cache i) s).paramsGlobal = s.paramsGlobal := by
  rw [Refresh_cache_busy S s g i hg hperm]
  simp only [Function.update_same]
  refine ⟨trivial, trivial, ?_, trivial, hperm, trivial⟩
  intro k hk
  rcases hk with hk | hk
  · exact getElem?_memcpyAt_of_lt _ _ _ _ (by omega) hk
  · exact getElem?_memcpyAt_of_ge _ _ _ _ (by simp [le16]; omega) (by simpa [le16] using hk)

/-- C13, the claim as stated fails: object 0 is inside a `LockForChange` bracket, so the
read permit is taken; object 1 has 7 in its member `ParametersSize`. Its `Refresh` does not
get the permit and still rewrites the member to 52. -/
theorem C13_busy_refresh_rewrites_length_field :
    (LockForChange demoSchema (Ref.cache 0)
        (editBank (Ref.cache 1) (fun bank => memcpyAt bank 2 [7, 0]) demoSys)).readSemaphore_ =
      false ∧
    ((LockForChange demoSchema (Ref.cache 0)
        (editBank (Ref.cache 1) (fun bank => memcpyAt bank 2 [7, 0]) demoSys)).objects
        1).bank.getD 2 0 = 7 ∧
    ((Refresh demoSchema (Ref.cache 1)
        (LockForChange demoSchema (Ref.cache 0)
          (editBank (Ref.cache 1) (fun bank => memcpyAt bank 2 [7, 0]) demoSys))).objects
        1).bank.getD 2 0 = 52 := by
  decide

/-- C13, an instance: object 1 refreshes while object 0 is inside its bracket. -/
theorem C13_refresh_without_permit_witness :
    ((Refresh demoSchema (Ref.cache 1)
        (LockForChange demoSchema (Ref.cache 0) demoSys)).objects 1).changeCounter_ =
      ((LockForChange demoSchema (Ref.cache 0) demoSys).objects 1).changeCounter_ ∧
    ((Refresh demoSchema (Ref.cache 1)
        (LockForChange demoSchema (Ref.cache 0) demoSys)).objects 1).bank =
      setParametersSize demoSchema ((LockForChange demoSchema (Ref.cache 0) demoSys).objects
        1).bank demoSchema.PARAMETERS_LENGTH :=
  ⟨(C13_refresh_without_permit demoSchema (LockForChange demoSchema (Ref.cache 0) demoSys)
      ((LockForChange demoSchema (Ref.cache 0) demoSys).paramsGlobal.getD default) 1
      (by decide) (by decide) (by decide)).1,
   (C13_refresh_without_permit demoSchema (LockForChange demoSchema (Ref.cache 0) demoSys)
      ((LockForChange demoSchema (Ref.cache 0) demoSys).paramsGlobal.getD default) 1
      (by decide) (by decide) (by decide)).2.1⟩

/-! ## The change bracket -/

/-- The bank of the calling object after `LockForChange`. -/
theorem LockForChange_bank (S : Schema) (s : Sys) (g : Obj) (this : Ref)
    (hg : s.paramsGlobal = some g) :
    ((LockForChange S this s).obj this).bank =
      memcpyAt (s.obj this).bank 0 (readBytes g.bank 0 S.PARAMETERS_LENGTH) := by
  cases this <;>
    simp [LockForChange, hg, Sys.setBank, Sys.setObj, Sys.obj, Sys.setCounter, takeWrite,
      takeRead]

/-- The canonical bank after `UnlockAfterChange`. -/
theorem UnlockAfterChange_bank (S : Schema) (s : Sys) (g : Obj) (this : Ref)
    (hg : s.paramsGlobal = some g) :
    (UnlockAfterChange S this s).paramsGlobal.map Obj.bank =
      some (memcpyAt g.bank 0 (readBytes (s.obj this).bank 0 S.PARAMETERS_LENGTH)) := by
  cases this <;>
    simp [UnlockAfterChange, hg, Sys.setBank, Sys.setObj, Sys.obj, giveRead, giveWrite]

/-- C14: `LockForChange` makes the calling object's bank equal to the current canonical
bank, whatever the object held; `UnlockAfterChange` makes the canonical bank equal to the
calling object's bank; and with nothing in between but the caller's edit, the canonical bank
after the pair is the canonical bank before it with the edit applied. -/
theorem C14_lock_unlock_bank (S : Schema) (s : Sys) (g : Obj) (this : Ref)
    (edit : List Nat → List Nat)
    (hg : s.paramsGlobal = some g) (hgl : g.bank.length = S.PARAMETERS_LENGTH)
    (hcl : (s.obj this).bank.length = S.PARAMETERS_LENGTH)
    (hedit : (edit g.bank).length = S.PARAMETERS_LENGTH) :
    ((LockForChange S this s).obj this).bank = g.bank ∧
    (∀ (s1 : Sys) (g1 : Obj), s1.paramsGlobal = some g1 →
      g1.bank.length = S.PARAMETERS_LENGTH → (s1.obj this).bank.length = S.PARAMETERS_LENGTH →
      (UnlockAfterChange S this s1).paramsGlobal.map Obj.bank = some (s1.obj this).bank) ∧
    (UnlockAfterChange S this (editBank this edit (LockForChange S this s))).paramsGlobal.map
        Obj.bank = some (edit g.bank) := by
  have hlock : ((LockForChange S this s).obj this).bank = g.bank := by
    rw [LockForChange_bank S s g this hg, readBytes_bank _ _ (le_of_eq hgl)]
    exact memcpyAt_bank _ _ (by omega)
  have hunlock : ∀ (s1 : Sys) (g1 : Obj), s1.paramsGlobal = some g1 →
      g1.bank.length = S.PARAMETERS_LENGTH → (s1.obj this).bank.length = S.PARAMETERS_LENGTH →
      (UnlockAfterChange S this s1).paramsGlobal.map Obj.bank = some (s1.obj this).bank := by
    intro s1 g1 h1 h2 h3
    rw [UnlockAfterChange_bank S s1 g1 this h1, readBytes_bank _ _ (le_of_eq h3)]
    rw [memcpyAt_bank _ _ (by omega)]
  refine ⟨hlock, hunlock, ?_⟩
  have hobj : ((editBank this edit (LockForChange S this s)).obj this).bank = edit g.bank := by
    have : ((editBank this edit (LockForChange S this s)).obj this).bank =
        edit ((LockForChange S this s).obj this).bank := by
      cases this <;> simp [editBank, Sys.setBank, Sys.setObj, Sys.obj]
    rw [this, hlock]
  cases this with
  | global =>
    have hsome : (editBank Ref.global edit (LockForChange S Ref.global s)).paramsGlobal =
        some ((editBank Ref.global edit (LockForChange S Ref.global s)).obj Ref.global) := by
      simp [editBank, Sys.setBank, Sys.setObj, Sys.obj]
    rw [hunlock _ _ hsome (by rw [hobj]; exact hedit) (by rw [hobj]; exact hedit), hobj]
  | cache i =>
    have hsome : (editBank (Ref.cache i) edit (LockForChange S (Ref.cache i) s)).paramsGlobal =
        some g := by
      simp [editBank, LockForChange, hg, Sys.setBank, Sys.setObj, Sys.obj, Sys.setCounter,
        takeWrite, takeRead]
    rw [hunlock _ _ hsome hgl (by rw [hobj]; exact hedit), hobj]

/-- C14, an instance: object 1 of the demonstration state sets `controller.mode` to 2. -/
theorem C14_lock_unlock_bank_witness :
    (UnlockAfterChange demoSchema (Ref.cache 1)
        (editBank (Ref.cache 1) (fun bank => memcpyAt bank 17 [2])
          (LockForChange demoSchema (Ref.cache 1) demoSys))).paramsGlobal.map Obj.bank =
      some ((fun bank => memcpyAt bank 17 [2]) (demoSys.paramsGlobal.getD default).bank) :=
  (C14_lock_unlock_bank demoSchema demoSys (demoSys.paramsGlobal.getD default) (Ref.cache 1)
    (fun bank => memcpyAt bank 17 [2]) (by decide) (by decide) (by decide) (by decide)).2.2

/-! ## What a cache holds after construction -/

/-- C15, the code at the failing input: the first object is constructed from startup with
an EEPROM whose section is blank (all bytes 255, stored length 65535, not 52) on the layout
whose compiled flag `ForceDefaultParameters` is clear. The canonical bank is the default
bank when it is created and at the end; the image is rejected and the defaults written. The
object itself, outside any bracket (both semaphores available), ends up with the rejected
image in its bank, only `ParametersSize` patched to 52: the `Refresh` at the end of the
constructor finds both change counters 0 and copies nothing. -/
theorem C15_first_object_keeps_rejected_image :
    getParametersSize quietSchema (List.replicate 52 255) = 65535 ∧
    (createdSys quietSchema 0 (demoEEPROM (List.replicate 52 255))).paramsGlobal.map Obj.bank =
      some (freshBank quietSchema) ∧
    (Parameters_ctor quietSchema 0 true true
        (startup (demoEEPROM (List.replicate 52 255)))).paramsGlobal.map Obj.bank =
      some (freshBank quietSchema) ∧
    (Parameters_ctor quietSchema 0 true true
        (startup (demoEEPROM (List.replicate 52 255)))).eeprom.written =
      [freshBank quietSchema] ∧
    ((Parameters_ctor quietSchema 0 true true
        (startup (demoEEPROM (List.replicate 52 255)))).objects 0).bank =
      setParametersSize quietSchema (List.replicate 52 255) 52 ∧
    ((Parameters_ctor quietSchema 0 true true
        (startup (demoEEPROM (List.replicate 52 255)))).objects 0).bank ≠
      freshBank quietSchema ∧
    (Parameters_ctor quietSchema 0 true true
        (startup (demoEEPROM (List.replicate 52 255)))).readSemaphore_ = true ∧
    (Parameters_ctor quietSchema 0 true true
        (startup (demoEEPROM (List.replicate 52 255)))).writeSemaphore_ = true ∧
    (Parameters_ctor quietSchema 0 true true
        (startup (demoEEPROM (List.replicate 52 255)))).semLog.drop 7 =
      [SemEvent.takeRead, SemEvent.giveRead] := by
  decide

/-! ## The permits -/

/-- C18, the code at the failing input: `LoadParametersFromEEPROM` on any object with a
non-null EEPROM takes the write permit, then the read permit, and then gives the write
permit, the read permit and the write permit once more: the write permit is released while
the read permit is held, and released twice for one acquisition. -/
theorem C18_load_releases_write_first (S : Schema) (this : Ref) (s : Sys) :
    (LoadParametersFromEEPROM S this true s).semLog =
      s.semLog ++ [SemEvent.takeWrite, SemEvent.takeRead, SemEvent.giveWrite,
        SemEvent.giveRead, SemEvent.giveWrite] := by
  cases this <;>
    simp [LoadParametersFromEEPROM, Sys.setBank, Sys.setObj, Sys.obj, takeWrite, takeRead,
      giveRead, giveWrite]

/-- The other operations that take both permits do it in the order of the spec: write
before read on the way in, read before write on the way out, one give per take. -/
theorem both_permits_in_order (S : Schema) (s : Sys) (g : Obj) (i : Nat)
    (edit : List Nat → List Nat) (payload : List Nat)
    (hg : s.paramsGlobal = some g) (hlen : sizeofSetParameter < payload.length) :
    (UnlockAfterChange S (Ref.cache i)
        (editBank (Ref.cache i) edit (LockForChange S (Ref.cache i) s))).semLog =
      s.semLog ++ [SemEvent.takeWrite, SemEvent.takeRead, SemEvent.giveRead,
        SemEvent.giveWrite] ∧
    (SetParameter_Callback S (some Ref.global) payload s).semLog =
      s.semLog ++ [SemEvent.takeWrite, SemEvent.takeRead, SemEvent.giveRead,
        SemEvent.giveWrite] ∧
    (StoreParameters_Callback S (some Ref.global) payload s).semLog =
      s.semLog ++ [SemEvent.takeWrite, SemEvent.takeRead, SemEvent.giveRead,
        SemEvent.giveWrite] := by
  refine ⟨?_, ?_, ?_⟩
  · simp [LockForChange, UnlockAfterChange, editBank, Sys.setBank, Sys.setCounter,
      Sys.setObj, Sys.obj, takeWrite, takeRead, giveRead, giveWrite, hg]
  · rcases LookupParameter_cases S (payload.getD 0 0) (payload.getD 1 0) with h0 | ⟨p, _, hlook⟩
    · rw [SetParameter_Callback_unknown S s g payload hg hlen h0]
    · rw [SetParameter_Callback_registered S s g payload p hg hlen hlook]
      split_ifs <;> rfl
  · rw [StoreParameters_Callback_eq S s g payload hg]

/-! ## Which handlers change the canonical store -/

/-- The Get handler leaves the canonical object as it is. -/
theorem GetParameter_Callback_paramsGlobal (S : Schema) (s : Sys) (payload : List Nat)
    (msgBuf : Bool) :
    (GetParameter_Callback S (some Ref.global) payload msgBuf s).paramsGlobal =
      s.paramsGlobal := by
  unfold GetParameter_Callback
  cases hg : s.paramsGlobal with
  | none => simp [hg]
  | some g =>
    by_cases hlen : payload.length = sizeofGetParameter
    · simp only [hlen, ne_eq, not_true_eq_false, if_false]
      split
      · split
        · split <;> simp [transmit, takeRead, giveRead, hg]
        · simp [takeRead, giveRead, hg]
      · simp [takeRead, giveRead, hg]
    · simp [hlen, hg]

/-- The loop of the dump leaves the canonical object as it is. -/
theorem dumpLoop_paramsGlobal (S : Schema) (bank : List Nat) (fuel : Nat) :
    ∀ (left paramPtr : Nat) (s s' : Sys), dumpLoop S bank fuel left paramPtr s = some s' →
      s'.paramsGlobal = s.paramsGlobal := by
  induction fuel with
  | zero =>
    intro left paramPtr s s' h
    unfold dumpLoop at h
    by_cases hl : left > 0
    · simp [hl] at h
    · simp only [hl, if_false, Option.some.injEq] at h
      rw [← h]
  | succ f ih =>
    intro left paramPtr s s' h
    unfold dumpLoop at h
    by_cases hl : left > 0
    · simp only [hl, if_true] at h
      have := ih _ _ _ _ h
      rw [this]
      rfl
    · simp only [hl, if_false, Option.some.injEq] at h
      rw [← h]

/-- The Dump handler leaves the canonical object as it is, whenever it returns. -/
theorem DumpParameters_Callback_paramsGlobal (S : Schema) (fuel : Nat) (payload : List Nat)
    (s s' : Sys) (h : DumpParameters_Callback S fuel (some Ref.global) payload s = some s') :
    s'.paramsGlobal = s.paramsGlobal := by
  cases hg : s.paramsGlobal with
  | none =>
    simp [DumpParameters_Callback, hg] at h
    rw [← h, hg]
  | some g =>
    rw [DumpParameters_Callback_eq S fuel payload s g hg] at h
    cases hd : dumpLoop S g.bank fuel (S.PARAMETERS_LENGTH % 65536) 0
        (transmit (takeRead s) (Msg.DumpParametersHeader (S.PARAMETERS_LENGTH % 65536)
          ((S.PARAMETERS_LENGTH % 65536 / S.LSPC_MAXIMUM_PACKAGE_LENGTH +
            (if S.PARAMETERS_LENGTH % 65536 % S.LSPC_MAXIMUM_PACKAGE_LENGTH > 0 then 1 else 0))
              % 65536))) with
    | none => simp [hd] at h
    | some s1 =>
      rw [hd] at h
      simp only [Option.map_some', Option.some.injEq] at h
      rw [← h]
      have := dumpLoop_paramsGlobal S g.bank fuel _ _ _ _ hd
      simp only [giveRead, this, transmit, takeRead, hg]

/-- C16 (amended): among the four remote handlers only SetParameter changes the canonical
store. A SetParameter request longer than the request header raises the canonical version
counter by exactly 1 (modulo 2^32, the counter being a 32-bit unsigned), once per request,
acknowledged or not; a request no longer than the header is dropped and raises nothing.
GetParameter, StoreParameters and DumpParameters leave the canonical bank and the canonical
version counter unchanged for every payload (the dump returns, given fuel for its loop). -/
theorem C16_only_set_changes_canonical (S : Schema) (s : Sys) (g : Obj) (payload : List Nat)
    (hg : s.paramsGlobal = some g) (hM : 0 < S.LSPC_MAXIMUM_PACKAGE_LENGTH) :
    (sizeofSetParameter < payload.length →
      (SetParameter_Callback S (some Ref.global) payload s).paramsGlobal.map
          Obj.changeCounter_ = some ((g.changeCounter_ + 1) % 4294967296) ∧
      (g.changeCounter_ + 1 < 4294967296 →
        (SetParameter_Callback S (some Ref.global) payload s).paramsGlobal.map
          Obj.changeCounter_ = some (g.changeCounter_ + 1))) ∧
    (payload.length ≤ sizeofSetParameter →
      SetParameter_Callback S (some Ref.global) payload s = s) ∧
    (∀ msgBuf : Bool,
      (GetParameter_Callback S (some Ref.global) payload msgBuf s).paramsGlobal =
        s.paramsGlobal) ∧
    (StoreParameters_Callback S (some Ref.global) payload s).paramsGlobal = s.paramsGlobal ∧
    (∃ s', DumpParameters_Callback S (S.PARAMETERS_LENGTH % 65536) (some Ref.global) payload s =
        some s' ∧ s'.paramsGlobal = s.paramsGlobal) ∧
    (∀ (fuel : Nat) (s' : Sys),
      DumpParameters_Callback S fuel (some Ref.global) payload s = some s' →
      s'.paramsGlobal = s.paramsGlobal) := by
  refine ⟨?_, SetParameter_Callback_short S s payload, ?_, ?_, ?_, ?_⟩
  · intro hlen
    have hcount : (SetParameter_Callback S (some Ref.global) payload s).paramsGlobal.map
        Obj.changeCounter_ = some ((g.changeCounter_ + 1) % 4294967296) := by
      rcases LookupParameter_cases S (payload.getD 0 0) (payload.getD 1 0) with
        h0 | ⟨p, _, hlook⟩
      · rw [SetParameter_Callback_unknown S s g payload hg hlen h0]
        rfl
      · rw [SetParameter_Callback_registered S s g payload p hg hlen hlook]
        split_ifs <;> rfl
    refine ⟨hcount, ?_⟩
    intro hlt
    rw [hcount, Nat.mod_eq_of_lt hlt]
  · intro msgBuf
    exact GetParameter_Callback_paramsGlobal S s payload msgBuf
  · rw [StoreParameters_Callback_eq S s g payload hg]
  · rw [DumpParameters_Callback_eq S _ payload s g hg]
    obtain ⟨frags, hrun, _, _⟩ := dumpLoop_spec S g.bank hM (S.PARAMETERS_LENGTH % 65536)
      (S.PARAMETERS_LENGTH % 65536) 0
      (transmit (takeRead s) (Msg.DumpParametersHeader (S.PARAMETERS_LENGTH % 65536)
          ((S.PARAMETERS_LENGTH % 65536 / S.LSPC_MAXIMUM_PACKAGE_LENGTH +
            (if S.PARAMETERS_LENGTH % 65536 % S.LSPC_MAXIMUM_PACKAGE_LENGTH > 0 then 1 else 0))
              % 65536)))
      (Nat.mod_lt _ (by decide)) (le_refl _)
    rw [hrun]
    exact ⟨_, rfl, by simp [giveRead, transmit, takeRead]⟩
  · intro fuel s' h
    exact DumpParameters_Callback_paramsGlobal S fuel payload s s' h

/-- C16, the claim as stated fails: the SetParameter handler run on a request that consists
of the header alone leaves the canonical version counter at 0. -/
theorem C16_header_only_set_leaves_counter :
    demoSys.paramsGlobal.map Obj.changeCounter_ = some 0 ∧
    (SetParameter_Callback demoSchema (some Ref.global) [2, 1, 2, 1]
        demoSys).paramsGlobal.map Obj.changeCounter_ = some 0 ∧
    (SetParameter_Callback demoSchema (some Ref.global) [2, 1, 2, 1, 2]
        demoSys).paramsGlobal.map Obj.changeCounter_ = some 1 := by
  decide

/-- C16, an instance on the demonstration state: a rejected Set still raises the counter,
the other handlers leave the canonical object alone. -/
theorem C16_only_set_changes_canonical_witness :
    (sizeofSetParameter < [2, 1, 0, 1, 2].length →
      (SetParameter_Callback demoSchema (some Ref.global) [2, 1, 0, 1, 2]
          demoSys).paramsGlobal.map Obj.changeCounter_ =
        some (((demoSys.paramsGlobal.getD default).changeCounter_ + 1) % 4294967296) ∧
      ((demoSys.paramsGlobal.getD default).changeCounter_ + 1 < 4294967296 →
        (SetParameter_Callback demoSchema (some Ref.global) [2, 1, 0, 1, 2]
          demoSys).paramsGlobal.map Obj.changeCounter_ =
          some ((demoSys.paramsGlobal.getD default).changeCounter_ + 1))) ∧
    (StoreParameters_Callback demoSchema (some Ref.global) [2, 1, 0, 1, 2]
        demoSys).paramsGlobal = demoSys.paramsGlobal :=
  ⟨(C16_only_set_changes_canonical demoSchema demoSys (demoSys.paramsGlobal.getD default)
      [2, 1, 0, 1, 2] (by decide) (by decide)).1,
   (C16_only_set_changes_canonical demoSchema demoSys (demoSys.paramsGlobal.getD default)
      [2, 1, 0, 1, 2] (by decide) (by decide)).2.2.2.1⟩

/-! ## The bytes an acknowledged Set writes -/

theorem getElem?_readBytes (mem : List Nat) (off n k : Nat) :
    (readBytes mem off n)[k]? = if k < n then mem[off + k]? else none := by
  simp [readBytes, List.getElem?_take, List.getElem?_drop]

/-- Bytes read outside the copied range are the bytes from before the copy. -/
theorem readBytes_memcpyAt_apart (mem src : List Nat) (off a n : Nat)
    (hin : off + src.length ≤ mem.length)
    (hapart : a + n ≤ off ∨ off + src.length ≤ a) :
    readBytes (memcpyAt mem off src) a n = readBytes mem a n := by
  apply List.ext_getElem?
  intro k
  rw [getElem?_readBytes, getElem?_readBytes]
  by_cases hk : k < n
  · rw [if_pos hk, if_pos hk]
    rcases hapart with h | h
    · exact getElem?_memcpyAt_of_lt _ _ _ _ (by omega) (by omega)
    · exact getElem?_memcpyAt_of_ge _ _ _ _ hin (by omega)
  · rw [if_neg hk, if_neg hk]

theorem getD_memcpyAt_apart (mem src : List Nat) (off k : Nat)
    (hin : off + src.length ≤ mem.length)
    (hapart : k < off ∨ off + src.length ≤ k) :
    (memcpyAt mem off src).getD k 0 = mem.getD k 0 := by
  rw [List.getD_eq_getElem?_getD, List.getD_eq_getElem?_getD]
  rcases hapart with h | h
  · rw [getElem?_memcpyAt_of_lt _ _ _ _ (by omega) h]
  · rw [getElem?_memcpyAt_of_ge _ _ _ _ hin h]

/-- C19: for every acknowledged SetParameter request the handler copies exactly as many
bytes as the addressed field is wide (arrayLength * typeWidth for the registry's type), to
the offset of that field; the canonical bank keeps its length and differs from the bank
before only inside the byte range of the field, so every other registered field, the
force-defaults flag and the stored-length field are unchanged. -/
theorem C19_acknowledged_set_frame (S : Schema) (s : Sys) (g : Obj) (payload : List Nat)
    (hg : s.paramsGlobal = some g) (hS : S.FieldsInBank) (hA : S.FieldsApart)
    (hgl : g.bank.length = S.PARAMETERS_LENGTH)
    (hack : (SetParameter_Callback S (some Ref.global) payload s).tx =
      s.tx ++ [Msg.SetParameterAck (payload.getD 0 0) (payload.getD 1 0) true]) :
    ∃ (p : Param) (copied bank' : List Nat),
      LookupParameter S (payload.getD 0 0) (payload.getD 1 0) = (registryType p, some p, 1) ∧
      copied = (payload.drop sizeofSetParameter).take (1 * typeWidth (registryType p)) ∧
      copied.length = fieldSize p ∧
      (SetParameter_Callback S (some Ref.global) payload s).paramsGlobal.map Obj.bank =
        some bank' ∧
      bank' = memcpyAt g.bank (S.offset p) copied ∧
      bank'.length = g.bank.length ∧
      (∀ k, k < S.offset p ∨ S.offset p + fieldSize p ≤ k → bank'[k]? = g.bank[k]?) ∧
      (∀ q ∈ allParams, q ≠ p →
        readBytes bank' (S.offset q) (fieldSize q) = readBytes g.bank (S.offset q) (fieldSize q)) ∧
      ForceDefaultParameters bank' = ForceDefaultParameters g.bank ∧
      getParametersSize S bank' = getParametersSize S g.bank := by
  have hlen : sizeofSetParameter < payload.length := by
    by_contra hle
    rw [SetParameter_Callback_short S s payload (by omega)] at hack
    have := congrArg List.length hack
    simp at this
  rcases LookupParameter_cases S (payload.getD 0 0) (payload.getD 1 0) with h0 | ⟨p, hp, hlook⟩
  · rw [SetParameter_Callback_unknown S s g payload hg hlen h0] at hack
    simp at hack
  · have hset := SetParameter_Callback_registered S s g payload p hg hlen hlook
    by_cases hc : payload.getD 3 0 = 1 ∧
        S.valueTypeCode (registryType p) = payload.getD 2 0 ∧
        copyLength (registryType p) = (payload.length - sizeofSetParameter) % 65536
    · rw [if_pos hc] at hset
      have hw : typeWidth (registryType p) = copyLength (registryType p) :=
        (copyLength_eq_typeWidth _).symm
      have hmodle : (payload.length - sizeofSetParameter) % 65536 ≤
          payload.length - sizeofSetParameter := Nat.mod_le _ _
      have hcl : ((payload.drop sizeofSetParameter).take
          (1 * typeWidth (registryType p))).length = fieldSize p := by
        rw [one_mul, List.length_take, List.length_drop, fieldSize, hw]
        have := hc.2.2
        omega
      have hin : S.offset p + ((payload.drop sizeofSetParameter).take
          (1 * typeWidth (registryType p))).length ≤ g.bank.length := by
        rw [hcl, fieldSize, hw, hgl]
        exact hS p hp
      obtain ⟨hflag, hsize, hothers⟩ := hA p hp
      refine ⟨p, _, _, hlook, rfl, hcl, ?_, rfl, length_memcpyAt _ _ _ hin, ?_, ?_, ?_, ?_⟩
      · rw [hset, one_mul, hw]
        rfl
      · intro k hk
        rcases hk with hk | hk
        · exact getElem?_memcpyAt_of_lt _ _ _ _ (by omega) hk
        · exact getElem?_memcpyAt_of_ge _ _ _ _ hin (by rw [hcl]; exact hk)
      · intro q hq hqp
        apply readBytes_memcpyAt_apart _ _ _ _ _ hin
        rw [hcl]
        rcases hothers q hq hqp with h | h
        · exact Or.inr h
        · exact Or.inl h
      · unfold ForceDefaultParameters
        rw [getD_memcpyAt_apart _ _ _ _ hin (Or.inl (by omega))]
      · unfold getParametersSize readLe16
        rw [hcl] at hin
        rw [getD_memcpyAt_apart _ _ _ _ (by rw [hcl]; exact hin) (by rw [hcl]; omega),
          getD_memcpyAt_apart _ _ _ _ (by rw [hcl]; exact hin) (by rw [hcl]; omega)]
    · rw [if_neg hc] at hset
      rw [hset] at hack
      simp at hack

/-- C19, an instance: the acknowledged Set of `controller.mode` on the demonstration state. -/
theorem C19_acknowledged_set_frame_witness :
    ∃ (p : Param) (copied bank' : List Nat),
      LookupParameter demoSchema ([2, 1, 2, 1, 2].getD 0 0) ([2, 1, 2, 1, 2].getD 1 0) =
        (registryType p, some p, 1) ∧
      copied = ([2, 1, 2, 1, 2].drop sizeofSetParameter).take (1 * typeWidth (registryType p)) ∧
      copied.length = fieldSize p ∧
      (SetParameter_Callback demoSchema (some Ref.global) [2, 1, 2, 1, 2]
          demoSys).paramsGlobal.map Obj.bank = some bank' ∧
      bank' = memcpyAt (demoSys.paramsGlobal.getD default).bank (demoSchema.offset p) copied ∧
      bank'.length = (demoSys.paramsGlobal.getD default).bank.length ∧
      (∀ k, k < demoSchema.offset p ∨ demoSchema.offset p + fieldSize p ≤ k →
        bank'[k]? = (demoSys.paramsGlobal.getD default).bank[k]?) ∧
      (∀ q ∈ allParams, q ≠ p →
        readBytes bank' (demoSchema.offset q) (fieldSize q) =
          readBytes (demoSys.paramsGlobal.getD default).bank (demoSchema.offset q)
            (fieldSize q)) ∧
      ForceDefaultParameters bank' =
        ForceDefaultParameters (demoSys.paramsGlobal.getD default).bank ∧
      getParametersSize demoSchema bank' =
        getParametersSize demoSchema (demoSys.paramsGlobal.getD default).bank :=
  C19_acknowledged_set_frame demoSchema demoSys (demoSys.paramsGlobal.getD default)
    [2, 1, 2, 1, 2] (by decide) (by decide) (by decide) (by decide) (by decide)

end Kugle
